import Mathlib

/-!
Verification of the network-topology planner and resource-graph builder of
`awsinfra4databricks` against its natural-language specification.

The Python sources are shallowly embedded:

* IPv4 addresses are modelled as natural numbers below `2^32`; a CIDR network
  is a pair of its base address and its prefix length.  The Python code passes
  addresses around as dotted-quad strings and parses them with `ipaddress`;
  string parsing itself carries no logic beyond validation, so the embedding
  works with the numeric value directly.  `ipaddress.ip_network` in strict
  mode rejects an address with host bits set (a misaligned base) and rejects
  addresses outside the 32-bit range; both checks are modelled explicitly.
* Python `int` arithmetic is modelled with `Nat`.  The planner's
  `totalAddresses` accumulator is a Python `float` fed exclusively with sums
  of products `n * 2.0^k`; these are exact in double precision for every size
  that can still yield a valid (non-negative) /prefix, so `Nat` arithmetic
  agrees with the source on all inputs that do not already fail.
* Exceptions are modelled with `Except`: the planner's explicit
  `raise Exception(...)` sites become `configError` values and failures
  raised inside `ipaddress` (misalignment, address overflow) become
  `valueError` values.
-/

/-- Executable bit length of a natural number, written with explicit fuel so
that the kernel can evaluate it.  `bitLengthAux fuel n` computes the number of
binary digits of `n` provided `n ≤ fuel`. -/
def bitLengthAux : Nat → Nat → Nat
  | 0, _ => 0
  | fuel + 1, n => if n = 0 then 0 else bitLengthAux fuel (n / 2) + 1

/-- The number of binary digits of `n`: Python's `int.bit_length()`. -/
def bitLength (n : Nat) : Nat := bitLengthAux n n

theorem bitLengthAux_congr : ∀ (f₁ f₂ n : Nat), n ≤ f₁ → n ≤ f₂ →
    bitLengthAux f₁ n = bitLengthAux f₂ n := by
  intro f₁
  induction f₁ with
  | zero =>
    intro f₂ n h₁ _
    interval_cases n
    cases f₂ <;> simp [bitLengthAux]
  | succ k ih =>
    intro f₂ n h₁ h₂
    match f₂, n with
    | 0, n =>
      interval_cases n
      simp [bitLengthAux]
    | m + 1, n =>
      by_cases hn : n = 0
      · simp [bitLengthAux, hn]
      · have hlt : n / 2 < n := Nat.div_lt_self (Nat.pos_of_ne_zero hn) (by omega)
        have hk : n / 2 ≤ k := by omega
        have hm : n / 2 ≤ m := by omega
        simp only [bitLengthAux, hn, if_false]
        rw [ih m (n / 2) hk hm]

/-- Recurrence: for positive `n` the bit length is one more than that of
`n / 2`. -/
theorem bitLength_rec (n : Nat) (hn : n ≠ 0) :
    bitLength n = bitLength (n / 2) + 1 := by
  have hpos : 0 < n := Nat.pos_of_ne_zero hn
  have hlt : n / 2 < n := Nat.div_lt_self hpos (by omega)
  unfold bitLength
  match n, hn with
  | m + 1, _ =>
    simp only [bitLengthAux, Nat.succ_ne_zero, if_false]
    have := bitLengthAux_congr m ((m + 1) / 2) ((m + 1) / 2) (by omega) le_rfl
    rw [this]

theorem bitLength_zero : bitLength 0 = 0 := rfl

/-- Every natural number is below `2 ^ bitLength n`. -/
theorem lt_two_pow_bitLength : ∀ n : Nat, n < 2 ^ bitLength n := by
  intro n
  induction n using Nat.strong_induction_on with
  | _ n ih =>
    by_cases hn : n = 0
    · subst hn; simp [bitLength_zero]
    · have hpos : 0 < n := Nat.pos_of_ne_zero hn
      have hlt : n / 2 < n := Nat.div_lt_self hpos (by omega)
      have h2 := ih (n / 2) hlt
      rw [bitLength_rec n hn, pow_succ]
      omega

/-- `bitLength n` is the least `k` with `n < 2 ^ k`. -/
theorem bitLength_le_iff : ∀ n k : Nat, bitLength n ≤ k ↔ n < 2 ^ k := by
  intro n
  induction n using Nat.strong_induction_on with
  | _ n ih =>
    intro k
    constructor
    · intro h
      calc n < 2 ^ bitLength n := lt_two_pow_bitLength n
        _ ≤ 2 ^ k := Nat.pow_le_pow_right (by omega) h
    · intro h
      by_cases hn : n = 0
      · subst hn; simp [bitLength_zero]
      · have hpos : 0 < n := Nat.pos_of_ne_zero hn
        have hk : k ≠ 0 := by
          intro hk0
          subst hk0
          simp at h
          omega
        have hlt : n / 2 < n := Nat.div_lt_self hpos (by omega)
        have hdiv : n / 2 < 2 ^ (k - 1) := by
          have hk1 : k - 1 + 1 = k := by omega
          have : n < 2 ^ (k - 1 + 1) := by rw [hk1]; exact h
          rw [pow_succ] at this
          omega
        have := (ih (n / 2) hlt (k - 1)).mpr hdiv
        rw [bitLength_rec n hn]
        omega

/-- `bitLength` is monotone. -/
theorem bitLength_mono {m n : Nat} (h : m ≤ n) : bitLength m ≤ bitLength n :=
  (bitLength_le_iff m (bitLength n)).mpr
    (Nat.lt_of_le_of_lt h (lt_two_pow_bitLength n))

/-- Embeds `SubnetConfigurationBuilder.__subnetBitLength`
(`NetworkArchitecture.py`, lines 130-131):
`int(math.log2(1 << (num_ips + 5).bit_length()))`, which equals
`(num_ips + 5).bit_length()` because `math.log2` is exact on powers of two.
It is a total function: there is no error path. -/
def subnetBitLength (numIps : Nat) : Nat := bitLength (numIps + 5)

/-- The subnet prefix length derived from a host count, as used at every call
site of `__subnetBitLength` (the call sites compute `32 - size`).  The result
is an integer because Python would produce a negative prefix for astronomically
large host counts. -/
def requiredPrefixLength (hostCount : Nat) : Int :=
  32 - (subnetBitLength hostCount : Int)

/-- Modelled from the spec (§4.1): the smallest power of two that is at least
`n` (for `n ≥ 1`), written with the executable `bitLength`: `2 ^ k ≥ n` iff
`n - 1 < 2 ^ k` iff `bitLength (n - 1) ≤ k`. -/
def nextPow2 (n : Nat) : Nat := 2 ^ bitLength (n - 1)

/-- Modelled from the spec (§4.1): the spec's claimed block size in bits,
`ceil(log2(next_pow2(n)))` with `n = hostCount + 5`; since `nextPow2 n` is a
power of two its exact logarithm is `bitLength (nextPow2 n) - 1`. -/
def subnetBitLengthSpec (hostCount : Nat) : Nat :=
  bitLength (nextPow2 (hostCount + 5)) - 1

/-- An IPv4 CIDR network: base address and prefix length.  Corresponds to the
`ipaddress.IPv4Network` values the planner passes around as strings. -/
structure IpNetwork where
  base : Nat
  prefixLen : Nat
deriving DecidableEq, Repr

/-- The number of addresses in the network. -/
def IpNetwork.size (n : IpNetwork) : Nat := 2 ^ (32 - n.prefixLen)

/-- One past the last address of the network. -/
def IpNetwork.stop (n : IpNetwork) : Nat := n.base + n.size

/-- The error kinds a planner run can produce: `configError` models the
explicit `raise Exception(...)` sites, `valueError` models errors raised
inside `ipaddress` (misaligned base address, invalid address value, negative
prefix). -/
inductive PlanError where
  | configError (msg : String)
  | valueError
deriving DecidableEq, Repr

/-- Embeds `ipaddress.ip_network(addr + "/" + str(p))` in strict mode:
fails when the prefix is outside `[0, 32]`, when the address is not a valid
32-bit value, or when the address has host bits set for that prefix. -/
def mkIpNetwork (addr : Nat) (p : Int) : Except PlanError IpNetwork :=
  if 0 ≤ p ∧ p ≤ 32 then
    let pl := p.toNat
    if addr < 2 ^ 32 ∧ addr % 2 ^ (32 - pl) = 0 then
      .ok { base := addr, prefixLen := pl }
    else
      .error .valueError
  else
    .error .valueError

/-- Embeds one of the planner's carve loops
(`for _ in range(count): subnet = ip_network(str(startingIP) + "/" + str(32-bits));
append; startingIP = subnet[-1] + 1`).  Each step builds the network at the
cursor and advances the cursor past it; the advance `subnet[-1] + 1` itself
fails when it exceeds the last valid IPv4 address, exactly as
`IPv4Address.__add__` does. -/
def carveRole : Nat → Nat → Nat → Except PlanError (List IpNetwork × Nat)
  | cursor, 0, _ => .ok ([], cursor)
  | cursor, count + 1, bits =>
    match mkIpNetwork cursor (32 - (bits : Int)) with
    | .error e => .error e
    | .ok net =>
      if cursor + 2 ^ bits < 2 ^ 32 then
        match carveRole (cursor + 2 ^ bits) count bits with
        | .error e => .error e
        | .ok (rest, final) => .ok (net :: rest, final)
      else
        .error .valueError

/-- A list of networks laid out back to back starting at `c` and ending
exactly at `c'`. -/
def ChainedFrom : Nat → List IpNetwork → Nat → Prop
  | c, [], c' => c' = c
  | c, net :: rest, c' => net.base = c ∧ ChainedFrom (c + net.size) rest c'

/-- Containment of one network in another, as address ranges. -/
def containsNet (big small : IpNetwork) : Prop :=
  big.base ≤ small.base ∧ small.stop ≤ big.stop

/-- Disjointness of two networks, as address ranges. -/
def disjointNets (a b : IpNetwork) : Prop :=
  a.stop ≤ b.base ∨ b.stop ≤ a.base

theorem chainedFrom_append {l₁ l₂ : List IpNetwork} :
    ∀ {c c₁ c₂ : Nat}, ChainedFrom c l₁ c₁ → ChainedFrom c₁ l₂ c₂ →
    ChainedFrom c (l₁ ++ l₂) c₂ := by
  induction l₁ with
  | nil =>
    intro c c₁ c₂ h₁ h₂
    cases h₁
    simpa using h₂
  | cons hd tl ih =>
    intro c c₁ c₂ h₁ h₂
    obtain ⟨hbase, htl⟩ := h₁
    exact ⟨hbase, ih htl h₂⟩

theorem chainedFrom_le {l : List IpNetwork} :
    ∀ {c c' : Nat}, ChainedFrom c l c' → c ≤ c' := by
  induction l with
  | nil => intro c c' h; cases h; exact le_rfl
  | cons hd tl ih =>
    intro c c' h
    obtain ⟨hbase, htl⟩ := h
    have := ih htl
    have : c + hd.size ≤ c' := this
    omega

theorem chainedFrom_mem_bounds {l : List IpNetwork} :
    ∀ {c c' : Nat}, ChainedFrom c l c' → ∀ n ∈ l, c ≤ n.base ∧ n.stop ≤ c' := by
  induction l with
  | nil => intro c c' _ n hn; cases hn
  | cons hd tl ih =>
    intro c c' h n hn
    obtain ⟨hbase, htl⟩ := h
    have htail := ih htl
    cases hn with
    | head =>
      refine ⟨le_of_eq hbase.symm, ?_⟩
      have := chainedFrom_le htl
      simp [IpNetwork.stop, hbase]
      omega
    | tail _ hmem =>
      obtain ⟨h₁, h₂⟩ := htail n hmem
      exact ⟨by omega, h₂⟩

theorem chainedFrom_disjoint {l : List IpNetwork} :
    ∀ {c c' : Nat}, ChainedFrom c l c' →
    ∀ a ∈ l, ∀ b ∈ l, a ≠ b → disjointNets a b := by
  induction l with
  | nil => intro c c' _ a ha; cases ha
  | cons hd tl ih =>
    intro c c' h a ha b hb hne
    obtain ⟨hbase, htl⟩ := h
    have hbounds := chainedFrom_mem_bounds htl
    cases ha with
    | head =>
      cases hb with
      | head => exact absurd rfl hne
      | tail _ hbmem =>
        left
        have := (hbounds b hbmem).1
        simp [IpNetwork.stop, hbase]
        omega
    | tail _ hamem =>
      cases hb with
      | head =>
        right
        have := (hbounds a hamem).1
        simp [IpNetwork.stop, hbase]
        omega
      | tail _ hbmem => exact ih htl a hamem b hbmem hne

theorem carveRole_spec : ∀ (count cursor bits : Nat) (l : List IpNetwork) (final : Nat),
    carveRole cursor count bits = .ok (l, final) →
    ChainedFrom cursor l final ∧ final = cursor + count * 2 ^ bits ∧
    l.length = count ∧ ∀ n ∈ l, n.size = 2 ^ bits ∧ n.prefixLen = 32 - bits := by
  intro count
  induction count with
  | zero =>
    intro cursor bits l final h
    simp only [carveRole] at h
    cases h
    exact ⟨rfl, by omega, rfl, by intro n hn; cases hn⟩
  | succ k ih =>
    intro cursor bits l final h
    simp only [carveRole] at h
    split at h
    · cases h
    · rename_i net hmk
      split at h
      · rename_i hcur
        split at h
        · cases h
        · rename_i rest fin hrest
          cases h
          obtain ⟨hchain, hfin, hlen, hsizes⟩ := ih (cursor + 2 ^ bits) bits rest final hrest
          have hnet : net.base = cursor ∧ net.prefixLen = (32 - (bits : Int)).toNat := by
            unfold mkIpNetwork at hmk
            by_cases hp : 0 ≤ 32 - (bits : Int) ∧ 32 - (bits : Int) ≤ 32
            · rw [if_pos hp] at hmk
              by_cases ha : cursor < 2 ^ 32 ∧ cursor % 2 ^ (32 - (32 - (bits : Int)).toNat) = 0
              · rw [if_pos ha] at hmk
                cases hmk
                exact ⟨rfl, rfl⟩
              · rw [if_neg ha] at hmk; cases hmk
            · rw [if_neg hp] at hmk; cases hmk
          have hbits32 : bits ≤ 32 := by
            unfold mkIpNetwork at hmk
            by_cases hp : 0 ≤ 32 - (bits : Int) ∧ 32 - (bits : Int) ≤ 32
            · omega
            · rw [if_neg hp] at hmk; cases hmk
          have hplen : net.prefixLen = 32 - bits := by
            rw [hnet.2]
            omega
          have hsize : net.size = 2 ^ bits := by
            unfold IpNetwork.size
            rw [hplen]
            congr 1
            omega
          refine ⟨⟨hnet.1, ?_⟩, by rw [hfin]; ring, by simp [hlen], ?_⟩
          · rw [hsize]; exact hchain
          · intro n hn
            cases hn with
            | head => exact ⟨hsize, hplen⟩
            | tail _ hmem => exact hsizes n hmem
      · cases h

/-- Embeds `NetworkArchitectureDesignOptions.InternetAccess`. -/
inductive InternetAccess where
  | standard
  | highAvailability
  | disabled
deriving DecidableEq, Repr

/-- Embeds `NetworkArchitectureDesignOptions.PrivateLinkEndpoints`. -/
inductive PrivateLinkEndpoints where
  | enabled
  | disabled
deriving DecidableEq, Repr

/-- Embeds `NetworkArchitectureDesignOptions.VPCArchitectureMode`. -/
inductive VPCArchitectureMode where
  | singleVpc
  | hubAndSpoke
deriving DecidableEq, Repr

/-- Embeds `NetworkArchitectureDesignOptions.DataExfiltrationProtection`. -/
inductive DataExfiltrationProtection where
  | activated
  | deactivated
deriving DecidableEq, Repr

/-- Embeds `NetworkArchitectureDesignOptions` (`NetworkArchitecture.py`,
lines 6-44): an immutable record of the four design choices. -/
structure NetworkArchitectureDesignOptions where
  internetAccess : InternetAccess := .standard
  privateLinkEndpoints : PrivateLinkEndpoints := .disabled
  vpcArchitecture : VPCArchitectureMode := .singleVpc
  dataExfiltrationProtection : DataExfiltrationProtection := .deactivated
deriving DecidableEq, Repr

/-- Embeds `NetworkArchitectureParameters` (`NetworkArchitecture.py`,
lines 48-79), with the two starting addresses as numeric IPv4 values. -/
structure NetworkArchitectureParameters where
  vpcCidrStartingAddress : Nat := 167772160
  maxRunningNodesPerSubnet : Nat := 512
  availabilityZoneIndexes : List Nat := [0, 1]
  maxVpcEndpointsPerSubnet : Nat := 10
  hubVpcStartingAddress : Option Nat := none
deriving DecidableEq, Repr

/-- Embeds the validation in `NetworkArchitectureParameters.__init__`
(lines 61-64): at least two availability zones and no duplicates (the source
compares `len(t)` with `len(set(t))`). -/
def checkParameters (p : NetworkArchitectureParameters) : Except PlanError Unit :=
  if p.availabilityZoneIndexes.length < 2 then
    .error (.configError "There should be at least 2 availability zones specified")
  else if p.availabilityZoneIndexes.length ≠ p.availabilityZoneIndexes.dedup.length then
    .error (.configError "There should be no duplicates in the availability zones specified")
  else
    .ok ()

/-- Embeds `VpcAndSubnetCIDR.SubnetType`. -/
inductive SubnetType where
  | clusters
  | vpcendpoints
  | networkfirewall
  | natgateway
  | transitgateway
deriving DecidableEq, Repr

/-- Embeds `VpcAndSubnetCIDR.VpcType`. -/
inductive VpcType where
  | databricksVpc
  | hubVpc
deriving DecidableEq, Repr

/-- Embeds `VpcAndSubnetCIDR` (`NetworkArchitecture.py`, lines 83-124): the
VPC CIDR together with the per-role subnet lists; a `none` field corresponds
to an argument left as `None`, which the constructor does not enter into its
role dictionary. -/
structure VpcAndSubnetCIDR where
  vpcCIDR : IpNetwork
  vpcType : VpcType := .databricksVpc
  subnetsForClusters : Option (List IpNetwork) := none
  subnetsForVpcEndpoints : Option (List IpNetwork) := none
  subnetsForNetworkFirewall : Option (List IpNetwork) := none
  subnetsForNatGateway : Option (List IpNetwork) := none
  subnetsForTransitGateway : Option (List IpNetwork) := none
deriving DecidableEq, Repr

/-- Embeds `VpcAndSubnetCIDR.subnetCIDRs()`: the role-keyed dictionary whose
keys are exactly the roles whose subnet list was supplied. -/
def VpcAndSubnetCIDR.subnetCIDRs (v : VpcAndSubnetCIDR) :
    SubnetType → Option (List IpNetwork)
  | .clusters => v.subnetsForClusters
  | .vpcendpoints => v.subnetsForVpcEndpoints
  | .networkfirewall => v.subnetsForNetworkFirewall
  | .natgateway => v.subnetsForNatGateway
  | .transitgateway => v.subnetsForTransitGateway

/-- The planner's result (`SubnetConfigurationBuilder.vpcConfig()`): the
Databricks VPC entry is always present, the hub entry only in hub-and-spoke
mode. -/
structure SubnetConfiguration where
  databricksVpc : VpcAndSubnetCIDR
  hubVpc : Option VpcAndSubnetCIDR
deriving DecidableEq, Repr

/-- Lookup in the `VpcType`-keyed dictionary `self.__vpcConfig`. -/
def SubnetConfiguration.vpcConfig (cfg : SubnetConfiguration) :
    VpcType → Option VpcAndSubnetCIDR
  | .databricksVpc => some cfg.databricksVpc
  | .hubVpc => cfg.hubVpc

/-- Carve a role's subnets only when `cond` holds, mirroring the source's
`subnetsForX = None` followed by a conditional carve loop. -/
def carveOptionalRole (cond : Prop) [Decidable cond] (cursor count bits : Nat) :
    Except PlanError (Option (List IpNetwork) × Nat) :=
  if cond then
    match carveRole cursor count bits with
    | .error e => .error e
    | .ok (l, c) => .ok (some l, c)
  else
    .ok (none, cursor)

/-- The address-space accounting of the single-VPC branch
(`NetworkArchitecture.py`, lines 158-179): cluster subnets per availability
zone, endpoint subnets per availability zone when private link is enabled,
and NAT/firewall subnets once (standard internet) or per availability zone
(high availability). -/
def singleVpcTotalAddresses (d : NetworkArchitectureDesignOptions)
    (p : NetworkArchitectureParameters) : Nat :=
  p.availabilityZoneIndexes.length * 2 ^ subnetBitLength (2 * p.maxRunningNodesPerSubnet)
  + (if d.privateLinkEndpoints = .enabled then
      p.availabilityZoneIndexes.length *
        2 ^ subnetBitLength
          (if p.maxVpcEndpointsPerSubnet < 10 then 10 else p.maxVpcEndpointsPerSubnet)
    else 0)
  + (match d.internetAccess with
     | .standard =>
         2 ^ subnetBitLength 10
         + (if d.dataExfiltrationProtection = .activated then 2 ^ subnetBitLength 10 else 0)
     | .highAvailability =>
         p.availabilityZoneIndexes.length * 2 ^ subnetBitLength 10
         + (if d.dataExfiltrationProtection = .activated then
             p.availabilityZoneIndexes.length * 2 ^ subnetBitLength 10
           else 0)
     | .disabled => 0)

/-- Embeds the single-VPC branch of `SubnetConfigurationBuilder.__init__`
(`NetworkArchitecture.py`, lines 156-237): the exfiltration/no-internet check,
the address-space accounting, the VPC allocation at the starting address and
the sequential carve of clusters, endpoint, firewall and NAT subnets.  The
firewall and NAT loops break after the first availability zone when
`internetAccess` is `STANDARD`.  Resource tags, string rendering and the
enclosing object are elided; the numeric content is kept verbatim. -/
def buildSingleVpc (d : NetworkArchitectureDesignOptions)
    (p : NetworkArchitectureParameters) : Except PlanError VpcAndSubnetCIDR :=
  let nAZ := p.availabilityZoneIndexes.length
  let endpointIps := if p.maxVpcEndpointsPerSubnet < 10 then 10 else p.maxVpcEndpointsPerSubnet
  let vmSubnetSize := subnetBitLength (2 * p.maxRunningNodesPerSubnet)
  let endpointSubnetSize := subnetBitLength endpointIps
  let firewallSubnetSize := subnetBitLength 10
  let natGatewaySubnetSize := subnetBitLength 10
  if d.internetAccess = .disabled ∧ d.dataExfiltrationProtection = .activated then
    .error (.configError "Data Exfiltration Protection requested without Internet Access")
  else
    match mkIpNetwork p.vpcCidrStartingAddress
        (32 - (bitLength (singleVpcTotalAddresses d p) : Int)) with
    | .error e => .error e
    | .ok vpcNetwork =>
      match carveRole vpcNetwork.base nAZ vmSubnetSize with
      | .error e => .error e
      | .ok (subnetsForClusters, c₁) =>
        match carveOptionalRole (d.privateLinkEndpoints = .enabled) c₁ nAZ endpointSubnetSize with
        | .error e => .error e
        | .ok (subnetsForVpcEndpoints, c₂) =>
          match carveOptionalRole
              (d.internetAccess ≠ .disabled ∧ d.dataExfiltrationProtection = .activated) c₂
              (if d.internetAccess = .standard then 1 else nAZ) firewallSubnetSize with
          | .error e => .error e
          | .ok (subnetsForNetworkFirewall, c₃) =>
            match carveOptionalRole (d.internetAccess ≠ .disabled) c₃
                (if d.internetAccess = .standard then 1 else nAZ) natGatewaySubnetSize with
            | .error e => .error e
            | .ok (subnetsForNatGateway, _) =>
              .ok { vpcCIDR := vpcNetwork
                    vpcType := .databricksVpc
                    subnetsForClusters := some subnetsForClusters
                    subnetsForVpcEndpoints := subnetsForVpcEndpoints
                    subnetsForNetworkFirewall := subnetsForNetworkFirewall
                    subnetsForNatGateway := subnetsForNatGateway
                    subnetsForTransitGateway := none }

/-- The address-space accounting of the Databricks VPC in hub-and-spoke mode
(`NetworkArchitecture.py`, line 244). -/
def hubSpokeDbsTotalAddresses (p : NetworkArchitectureParameters) : Nat :=
  p.availabilityZoneIndexes.length *
    (2 ^ subnetBitLength (2 * p.maxRunningNodesPerSubnet) + 2 ^ subnetBitLength 10)

/-- Embeds the Databricks-VPC part of the hub-and-spoke branch
(`NetworkArchitecture.py`, lines 242-271): cluster subnets followed by one
transit-gateway subnet per availability zone, anchored at the starting
address. -/
def buildHubSpokeDbsVpc (p : NetworkArchitectureParameters) :
    Except PlanError VpcAndSubnetCIDR :=
  let nAZ := p.availabilityZoneIndexes.length
  let vmSubnetSize := subnetBitLength (2 * p.maxRunningNodesPerSubnet)
  let transitGatewaySubnetSize := subnetBitLength 10
  match mkIpNetwork p.vpcCidrStartingAddress
      (32 - (bitLength (hubSpokeDbsTotalAddresses p) : Int)) with
  | .error e => .error e
  | .ok vpcNetwork =>
    match carveRole vpcNetwork.base nAZ vmSubnetSize with
    | .error e => .error e
    | .ok (subnetsForClusters, c₁) =>
      match carveRole c₁ nAZ transitGatewaySubnetSize with
      | .error e => .error e
      | .ok (subnetsForTransitGateway, _) =>
        .ok { vpcCIDR := vpcNetwork
              vpcType := .databricksVpc
              subnetsForClusters := some subnetsForClusters
              subnetsForTransitGateway := some subnetsForTransitGateway }

/-- The address-space accounting of the hub VPC
(`NetworkArchitecture.py`, lines 278-301): transit-gateway subnets per
availability zone, endpoint subnets per availability zone when private link
is enabled, and NAT/firewall subnets once (standard internet) or per
availability zone (high availability). -/
def hubVpcTotalAddresses (d : NetworkArchitectureDesignOptions)
    (p : NetworkArchitectureParameters) : Nat :=
  p.availabilityZoneIndexes.length * 2 ^ subnetBitLength 10
  + (if d.privateLinkEndpoints = .enabled then
      p.availabilityZoneIndexes.length *
        2 ^ subnetBitLength
          (if p.maxVpcEndpointsPerSubnet < 10 then 10 else p.maxVpcEndpointsPerSubnet)
    else 0)
  + (match d.internetAccess with
     | .standard =>
         2 ^ subnetBitLength 10
         + (if d.dataExfiltrationProtection = .activated then 2 ^ subnetBitLength 10 else 0)
     | .highAvailability =>
         p.availabilityZoneIndexes.length * 2 ^ subnetBitLength 10
         + (if d.dataExfiltrationProtection = .activated then
             p.availabilityZoneIndexes.length * 2 ^ subnetBitLength 10
           else 0)
     | .disabled => 0)

/-- Embeds the hub-VPC part of the hub-and-spoke branch
(`NetworkArchitecture.py`, lines 273-357): the missing-hub-address check, the
no-endpoints/no-internet check, the exfiltration/no-internet check, the
address-space accounting anchored at the hub starting address, and the
sequential carve of endpoint, transit-gateway, firewall and NAT subnets, the
latter two breaking after the first availability zone under `STANDARD`
internet access. -/
def buildHubVpc (d : NetworkArchitectureDesignOptions)
    (p : NetworkArchitectureParameters) : Except PlanError VpcAndSubnetCIDR :=
  let nAZ := p.availabilityZoneIndexes.length
  let endpointIps := if p.maxVpcEndpointsPerSubnet < 10 then 10 else p.maxVpcEndpointsPerSubnet
  let endpointSubnetSize := subnetBitLength endpointIps
  let firewallSubnetSize := subnetBitLength 10
  let natGatewaySubnetSize := subnetBitLength 10
  let transitGatewaySubnetSize := subnetBitLength 10
  match p.hubVpcStartingAddress with
  | none =>
    .error (.configError "Hub and Spoke architecture requested without specifying the Hub VPC starting address")
  | some hubAddress =>
    if d.privateLinkEndpoints ≠ .enabled ∧ d.internetAccess = .disabled then
      .error (.configError "Hub and spoke architecture defined with no internet access and no VPC endpoints. No route to the control plane can be defined!")
    else if d.internetAccess = .disabled ∧ d.dataExfiltrationProtection = .activated then
      .error (.configError "Data Exfiltration Protection requested without Internet Access")
    else
      match mkIpNetwork hubAddress
          (32 - (bitLength (hubVpcTotalAddresses d p) : Int)) with
      | .error e => .error e
      | .ok vpcNetwork =>
        match carveOptionalRole (d.privateLinkEndpoints = .enabled) vpcNetwork.base nAZ
            endpointSubnetSize with
        | .error e => .error e
        | .ok (subnetsForVpcEndpoints, c₁) =>
          match carveRole c₁ nAZ transitGatewaySubnetSize with
          | .error e => .error e
          | .ok (subnetsForTransitGateway, c₂) =>
            match carveOptionalRole
                (d.internetAccess ≠ .disabled ∧ d.dataExfiltrationProtection = .activated) c₂
                (if d.internetAccess = .standard then 1 else nAZ) firewallSubnetSize with
            | .error e => .error e
            | .ok (subnetsForNetworkFirewall, c₃) =>
              match carveOptionalRole (d.internetAccess ≠ .disabled) c₃
                  (if d.internetAccess = .standard then 1 else nAZ) natGatewaySubnetSize with
              | .error e => .error e
              | .ok (subnetsForNatGateway, _) =>
                .ok { vpcCIDR := vpcNetwork
                      vpcType := .hubVpc
                      subnetsForVpcEndpoints := subnetsForVpcEndpoints
                      subnetsForNetworkFirewall := subnetsForNetworkFirewall
                      subnetsForNatGateway := subnetsForNatGateway
                      subnetsForTransitGateway := some subnetsForTransitGateway }

/-- Embeds `SubnetConfigurationBuilder.__init__` as a whole: the node-density
check (line 142) followed by either the single-VPC branch or, for
hub-and-spoke, the Databricks VPC build (which in the source precedes the
missing-hub-address check) and then the hub VPC build. -/
def buildSubnetConfiguration (d : NetworkArchitectureDesignOptions)
    (p : NetworkArchitectureParameters) : Except PlanError SubnetConfiguration :=
  if p.maxRunningNodesPerSubnet < 10 then
    .error (.configError "Very small number of nodes per subnet specified")
  else
    match d.vpcArchitecture with
    | .singleVpc =>
      match buildSingleVpc d p with
      | .error e => .error e
      | .ok v => .ok { databricksVpc := v, hubVpc := none }
    | .hubAndSpoke =>
      match buildHubSpokeDbsVpc p with
      | .error e => .error e
      | .ok dbs =>
        match buildHubVpc d p with
        | .error e => .error e
        | .ok hub => .ok { databricksVpc := dbs, hubVpc := some hub }

/-- The planning operation: parameter validation (performed by the
`NetworkArchitectureParameters` constructor in the source) followed by the
subnet-configuration build. -/
def plan (d : NetworkArchitectureDesignOptions) (p : NetworkArchitectureParameters) :
    Except PlanError SubnetConfiguration :=
  match checkParameters p with
  | .error e => .error e
  | .ok _ => buildSubnetConfiguration d p

/-- The subnet list of a role, empty when the role is absent. -/
def optSubnets (o : Option (List IpNetwork)) : List IpNetwork := o.getD []

/-- All subnets of a `VpcAndSubnetCIDR`, over all role lists. -/
def allSubnets (v : VpcAndSubnetCIDR) : List IpNetwork :=
  optSubnets v.subnetsForClusters ++ optSubnets v.subnetsForVpcEndpoints ++
  optSubnets v.subnetsForNetworkFirewall ++ optSubnets v.subnetsForNatGateway ++
  optSubnets v.subnetsForTransitGateway

theorem mkIpNetwork_ok_of_bl {addr bl : Nat} {net : IpNetwork}
    (h : mkIpNetwork addr (32 - (bl : Int)) = .ok net) :
    net.base = addr ∧ bl ≤ 32 ∧ net.size = 2 ^ bl := by
  unfold mkIpNetwork at h
  by_cases hp : 0 ≤ 32 - (bl : Int) ∧ 32 - (bl : Int) ≤ 32
  · rw [if_pos hp] at h
    by_cases ha : addr < 2 ^ 32 ∧ addr % 2 ^ (32 - (32 - (bl : Int)).toNat) = 0
    · rw [if_pos ha] at h
      cases h
      have hbl : bl ≤ 32 := by omega
      refine ⟨rfl, hbl, ?_⟩
      show 2 ^ (32 - (32 - (bl : Int)).toNat) = 2 ^ bl
      congr 1
      omega
    · rw [if_neg ha] at h; cases h
  · rw [if_neg hp] at h; cases h

theorem carveOptionalRole_spec (cond : Prop) [Decidable cond]
    {cursor count bits : Nat} {o : Option (List IpNetwork)} {c' : Nat}
    (h : carveOptionalRole cond cursor count bits = .ok (o, c')) :
    ChainedFrom cursor (optSubnets o) c' ∧
    c' = cursor + (if cond then count * 2 ^ bits else 0) ∧
    (cond → ∃ l, o = some l ∧ l.length = count) ∧
    (¬ cond → o = none) := by
  unfold carveOptionalRole at h
  by_cases hc : cond
  · rw [if_pos hc] at h
    cases hcar : carveRole cursor count bits with
    | error e => rw [hcar] at h; cases h
    | ok pr =>
      obtain ⟨l, c⟩ := pr
      rw [hcar] at h
      cases h
      obtain ⟨hchain, hfin, hlen, _⟩ := carveRole_spec count cursor bits l c' hcar
      exact ⟨hchain, by simp [hc, hfin], fun _ => ⟨l, rfl, hlen⟩, fun hn => absurd hc hn⟩
  · rw [if_neg hc] at h
    cases h
    exact ⟨rfl, by simp [hc], fun hcond => absurd hcond hc, fun _ => rfl⟩


theorem singleVpcExtra_le (d : NetworkArchitectureDesignOptions)
    (p : NetworkArchitectureParameters) :
    (if d.internetAccess ≠ .disabled ∧ d.dataExfiltrationProtection = .activated then
      (if d.internetAccess = .standard then 1 else p.availabilityZoneIndexes.length)
        * 2 ^ subnetBitLength 10
    else 0)
    + (if d.internetAccess ≠ .disabled then
      (if d.internetAccess = .standard then 1 else p.availabilityZoneIndexes.length)
        * 2 ^ subnetBitLength 10
    else 0)
    ≤ (match d.internetAccess with
       | .standard =>
           2 ^ subnetBitLength 10
           + (if d.dataExfiltrationProtection = .activated then 2 ^ subnetBitLength 10 else 0)
       | .highAvailability =>
           p.availabilityZoneIndexes.length * 2 ^ subnetBitLength 10
           + (if d.dataExfiltrationProtection = .activated then
               p.availabilityZoneIndexes.length * 2 ^ subnetBitLength 10
             else 0)
       | .disabled => 0) := by
  obtain ⟨ia, pl, arch, dep⟩ := d
  cases ia <;> cases dep <;> simp

theorem buildSingleVpc_spec {d : NetworkArchitectureDesignOptions}
    {p : NetworkArchitectureParameters} {v : VpcAndSubnetCIDR}
    (h : buildSingleVpc d p = .ok v) :
    v.vpcType = .databricksVpc ∧
    v.vpcCIDR.base = p.vpcCidrStartingAddress ∧
    v.subnetsForTransitGateway = none ∧
    (∃ l, v.subnetsForClusters = some l ∧ l.length = p.availabilityZoneIndexes.length) ∧
    (d.privateLinkEndpoints = .enabled →
      ∃ l, v.subnetsForVpcEndpoints = some l ∧ l.length = p.availabilityZoneIndexes.length) ∧
    (d.privateLinkEndpoints ≠ .enabled → v.subnetsForVpcEndpoints = none) ∧
    ((d.internetAccess ≠ .disabled ∧ d.dataExfiltrationProtection = .activated) →
      ∃ l, v.subnetsForNetworkFirewall = some l ∧
        l.length = (if d.internetAccess = .standard then 1 else p.availabilityZoneIndexes.length)) ∧
    (¬ (d.internetAccess ≠ .disabled ∧ d.dataExfiltrationProtection = .activated) →
      v.subnetsForNetworkFirewall = none) ∧
    (d.internetAccess ≠ .disabled →
      ∃ l, v.subnetsForNatGateway = some l ∧
        l.length = (if d.internetAccess = .standard then 1 else p.availabilityZoneIndexes.length)) ∧
    (d.internetAccess = .disabled → v.subnetsForNatGateway = none) ∧
    ∃ fin, ChainedFrom v.vpcCIDR.base
        (optSubnets v.subnetsForClusters ++ optSubnets v.subnetsForVpcEndpoints ++
         optSubnets v.subnetsForNetworkFirewall ++ optSubnets v.subnetsForNatGateway) fin ∧
      fin ≤ v.vpcCIDR.stop := by
  unfold buildSingleVpc at h
  dsimp only at h
  split at h
  · cases h
  · rename_i hguard
    cases hmk : mkIpNetwork p.vpcCidrStartingAddress
        (32 - (bitLength (singleVpcTotalAddresses d p) : Int)) with
    | error e => rw [hmk] at h; exact absurd h (by simp)
    | ok vpcNetwork =>
      rw [hmk] at h
      simp only at h
      cases hcl : carveRole vpcNetwork.base p.availabilityZoneIndexes.length
          (subnetBitLength (2 * p.maxRunningNodesPerSubnet)) with
      | error e => rw [hcl] at h; exact absurd h (by simp)
      | ok pr₁ =>
        obtain ⟨cl, c₁⟩ := pr₁
        rw [hcl] at h
        simp only at h
        cases hep : carveOptionalRole (d.privateLinkEndpoints = .enabled) c₁
            p.availabilityZoneIndexes.length
            (subnetBitLength
              (if p.maxVpcEndpointsPerSubnet < 10 then 10 else p.maxVpcEndpointsPerSubnet)) with
        | error e => rw [hep] at h; exact absurd h (by simp)
        | ok pr₂ =>
          obtain ⟨epo, c₂⟩ := pr₂
          rw [hep] at h
          simp only at h
          cases hfw : carveOptionalRole
              (d.internetAccess ≠ .disabled ∧ d.dataExfiltrationProtection = .activated) c₂
              (if d.internetAccess = .standard then 1 else p.availabilityZoneIndexes.length)
              (subnetBitLength 10) with
          | error e => rw [hfw] at h; exact absurd h (by simp)
          | ok pr₃ =>
            obtain ⟨fwo, c₃⟩ := pr₃
            rw [hfw] at h
            simp only at h
            cases hnat : carveOptionalRole (d.internetAccess ≠ .disabled) c₃
                (if d.internetAccess = .standard then 1 else p.availabilityZoneIndexes.length)
                (subnetBitLength 10) with
            | error e => rw [hnat] at h; exact absurd h (by simp)
            | ok pr₄ =>
              obtain ⟨nato, c₄⟩ := pr₄
              rw [hnat] at h
              simp only at h
              cases h
              obtain ⟨hclch, hclfin, hcllen, _⟩ := carveRole_spec _ _ _ _ _ hcl
              obtain ⟨hepch, hepfin, hepsome, hepnone⟩ := carveOptionalRole_spec _ hep
              obtain ⟨hfwch, hfwfin, hfwsome, hfwnone⟩ := carveOptionalRole_spec _ hfw
              obtain ⟨hnatch, hnatfin, hnatsome, hnatnone⟩ := carveOptionalRole_spec _ hnat
              obtain ⟨hbase, hbl, hsize⟩ := mkIpNetwork_ok_of_bl hmk
              refine ⟨rfl, hbase, rfl, ⟨cl, rfl, hcllen⟩, ?_, ?_, ?_, ?_, ?_, ?_, ?_⟩
              · intro hpl
                obtain ⟨l, hl, hlen⟩ := hepsome hpl
                exact ⟨l, by simp [hl], hlen⟩
              · intro hpl
                simp only
                exact hepnone hpl
              · intro hcond
                obtain ⟨l, hl, hlen⟩ := hfwsome hcond
                exact ⟨l, by simp [hl], hlen⟩
              · intro hcond
                simp only
                exact hfwnone hcond
              · intro hcond
                obtain ⟨l, hl, hlen⟩ := hnatsome hcond
                exact ⟨l, by simp [hl], hlen⟩
              · intro hcond
                simp only
                exact hnatnone (by simp [hcond])
              · refine ⟨c₄, ?_, ?_⟩
                · show ChainedFrom vpcNetwork.base
                    (optSubnets (some cl) ++ optSubnets epo ++ optSubnets fwo ++ optSubnets nato)
                    c₄
                  exact chainedFrom_append
                    (chainedFrom_append (chainedFrom_append hclch hepch) hfwch) hnatch
                · show c₄ ≤ vpcNetwork.base + vpcNetwork.size
                  have htot := lt_two_pow_bitLength (singleVpcTotalAddresses d p)
                  have hextra := singleVpcExtra_le d p
                  rw [hsize]
                  unfold singleVpcTotalAddresses at htot ⊢
                  omega

theorem buildHubSpokeDbsVpc_spec {p : NetworkArchitectureParameters} {v : VpcAndSubnetCIDR}
    (h : buildHubSpokeDbsVpc p = .ok v) :
    v.vpcType = .databricksVpc ∧
    v.vpcCIDR.base = p.vpcCidrStartingAddress ∧
    v.subnetsForVpcEndpoints = none ∧
    v.subnetsForNetworkFirewall = none ∧
    v.subnetsForNatGateway = none ∧
    (∃ l, v.subnetsForClusters = some l ∧ l.length = p.availabilityZoneIndexes.length) ∧
    (∃ l, v.subnetsForTransitGateway = some l ∧ l.length = p.availabilityZoneIndexes.length) ∧
    ∃ fin, ChainedFrom v.vpcCIDR.base
        (optSubnets v.subnetsForClusters ++ optSubnets v.subnetsForTransitGateway) fin ∧
      fin ≤ v.vpcCIDR.stop := by
  unfold buildHubSpokeDbsVpc at h
  dsimp only at h
  cases hmk : mkIpNetwork p.vpcCidrStartingAddress
      (32 - (bitLength (hubSpokeDbsTotalAddresses p) : Int)) with
  | error e => rw [hmk] at h; exact absurd h (by simp)
  | ok vpcNetwork =>
    rw [hmk] at h
    simp only at h
    cases hcl : carveRole vpcNetwork.base p.availabilityZoneIndexes.length
        (subnetBitLength (2 * p.maxRunningNodesPerSubnet)) with
    | error e => rw [hcl] at h; exact absurd h (by simp)
    | ok pr₁ =>
      obtain ⟨cl, c₁⟩ := pr₁
      rw [hcl] at h
      simp only at h
      cases htg : carveRole c₁ p.availabilityZoneIndexes.length (subnetBitLength 10) with
      | error e => rw [htg] at h; exact absurd h (by simp)
      | ok pr₂ =>
        obtain ⟨tg, c₂⟩ := pr₂
        rw [htg] at h
        simp only at h
        cases h
        obtain ⟨hclch, hclfin, hcllen, _⟩ := carveRole_spec _ _ _ _ _ hcl
        obtain ⟨htgch, htgfin, htglen, _⟩ := carveRole_spec _ _ _ _ _ htg
        obtain ⟨hbase, hbl, hsize⟩ := mkIpNetwork_ok_of_bl hmk
        refine ⟨rfl, hbase, rfl, rfl, rfl, ⟨cl, rfl, hcllen⟩, ⟨tg, rfl, htglen⟩, c₂, ?_, ?_⟩
        · exact chainedFrom_append hclch htgch
        · show c₂ ≤ vpcNetwork.base + vpcNetwork.size
          have htot := lt_two_pow_bitLength (hubSpokeDbsTotalAddresses p)
          have hdist : p.availabilityZoneIndexes.length *
              (2 ^ subnetBitLength (2 * p.maxRunningNodesPerSubnet) + 2 ^ subnetBitLength 10)
              = p.availabilityZoneIndexes.length *
                  2 ^ subnetBitLength (2 * p.maxRunningNodesPerSubnet)
                + p.availabilityZoneIndexes.length * 2 ^ subnetBitLength 10 :=
            Nat.mul_add _ _ _
          rw [hsize]
          unfold hubSpokeDbsTotalAddresses at htot ⊢
          omega

theorem buildHubVpc_spec {d : NetworkArchitectureDesignOptions}
    {p : NetworkArchitectureParameters} {v : VpcAndSubnetCIDR}
    (h : buildHubVpc d p = .ok v) :
    v.vpcType = .hubVpc ∧
    (∃ hubAddr, p.hubVpcStartingAddress = some hubAddr ∧ v.vpcCIDR.base = hubAddr) ∧
    v.subnetsForClusters = none ∧
    (∃ l, v.subnetsForTransitGateway = some l ∧ l.length = p.availabilityZoneIndexes.length) ∧
    (d.privateLinkEndpoints = .enabled →
      ∃ l, v.subnetsForVpcEndpoints = some l ∧ l.length = p.availabilityZoneIndexes.length) ∧
    (d.privateLinkEndpoints ≠ .enabled → v.subnetsForVpcEndpoints = none) ∧
    ((d.internetAccess ≠ .disabled ∧ d.dataExfiltrationProtection = .activated) →
      ∃ l, v.subnetsForNetworkFirewall = some l ∧
        l.length = (if d.internetAccess = .standard then 1 else p.availabilityZoneIndexes.length)) ∧
    (¬ (d.internetAccess ≠ .disabled ∧ d.dataExfiltrationProtection = .activated) →
      v.subnetsForNetworkFirewall = none) ∧
    (d.internetAccess ≠ .disabled →
      ∃ l, v.subnetsForNatGateway = some l ∧
        l.length = (if d.internetAccess = .standard then 1 else p.availabilityZoneIndexes.length)) ∧
    (d.internetAccess = .disabled → v.subnetsForNatGateway = none) ∧
    ∃ fin, ChainedFrom v.vpcCIDR.base
        (optSubnets v.subnetsForVpcEndpoints ++ optSubnets v.subnetsForTransitGateway ++
         optSubnets v.subnetsForNetworkFirewall ++ optSubnets v.subnetsForNatGateway) fin ∧
      fin ≤ v.vpcCIDR.stop := by
  unfold buildHubVpc at h
  dsimp only at h
  split at h
  · cases h
  · rename_i hubAddress hhub
    split at h
    · cases h
    · rename_i hguard₁
      split at h
      · cases h
      · rename_i hguard₂
        cases hmk : mkIpNetwork hubAddress
            (32 - (bitLength (hubVpcTotalAddresses d p) : Int)) with
        | error e => rw [hmk] at h; exact absurd h (by simp)
        | ok vpcNetwork =>
          rw [hmk] at h
          simp only at h
          cases hep : carveOptionalRole (d.privateLinkEndpoints = .enabled) vpcNetwork.base
              p.availabilityZoneIndexes.length
              (subnetBitLength
                (if p.maxVpcEndpointsPerSubnet < 10 then 10 else p.maxVpcEndpointsPerSubnet)) with
          | error e => rw [hep] at h; exact absurd h (by simp)
          | ok pr₁ =>
            obtain ⟨epo, c₁⟩ := pr₁
            rw [hep] at h
            simp only at h
            cases htg : carveRole c₁ p.availabilityZoneIndexes.length (subnetBitLength 10) with
            | error e => rw [htg] at h; exact absurd h (by simp)
            | ok pr₂ =>
              obtain ⟨tg, c₂⟩ := pr₂
              rw [htg] at h
              simp only at h
              cases hfw : carveOptionalRole
                  (d.internetAccess ≠ .disabled ∧ d.dataExfiltrationProtection = .activated) c₂
                  (if d.internetAccess = .standard then 1 else p.availabilityZoneIndexes.length)
                  (subnetBitLength 10) with
              | error e => rw [hfw] at h; exact absurd h (by simp)
              | ok pr₃ =>
                obtain ⟨fwo, c₃⟩ := pr₃
                rw [hfw] at h
                simp only at h
                cases hnat : carveOptionalRole (d.internetAccess ≠ .disabled) c₃
                    (if d.internetAccess = .standard then 1 else p.availabilityZoneIndexes.length)
                    (subnetBitLength 10) with
                | error e => rw [hnat] at h; exact absurd h (by simp)
                | ok pr₄ =>
                  obtain ⟨nato, c₄⟩ := pr₄
                  rw [hnat] at h
                  simp only at h
                  cases h
                  obtain ⟨hepch, hepfin, hepsome, hepnone⟩ := carveOptionalRole_spec _ hep
                  obtain ⟨htgch, htgfin, htglen, _⟩ := carveRole_spec _ _ _ _ _ htg
                  obtain ⟨hfwch, hfwfin, hfwsome, hfwnone⟩ := carveOptionalRole_spec _ hfw
                  obtain ⟨hnatch, hnatfin, hnatsome, hnatnone⟩ := carveOptionalRole_spec _ hnat
                  obtain ⟨hbase, hbl, hsize⟩ := mkIpNetwork_ok_of_bl hmk
                  refine ⟨rfl, ⟨hubAddress, hhub, hbase⟩, rfl, ⟨tg, rfl, htglen⟩,
                    ?_, ?_, ?_, ?_, ?_, ?_, ?_⟩
                  · intro hpl
                    obtain ⟨l, hl, hlen⟩ := hepsome hpl
                    exact ⟨l, by simp [hl], hlen⟩
                  · intro hpl
                    simp only
                    exact hepnone hpl
                  · intro hcond
                    obtain ⟨l, hl, hlen⟩ := hfwsome hcond
                    exact ⟨l, by simp [hl], hlen⟩
                  · intro hcond
                    simp only
                    exact hfwnone hcond
                  · intro hcond
                    obtain ⟨l, hl, hlen⟩ := hnatsome hcond
                    exact ⟨l, by simp [hl], hlen⟩
                  · intro hcond
                    simp only
                    exact hnatnone (by simp [hcond])
                  · refine ⟨c₄, ?_, ?_⟩
                    · show ChainedFrom vpcNetwork.base
                        (optSubnets epo ++ optSubnets (some tg) ++ optSubnets fwo ++
                         optSubnets nato) c₄
                      exact chainedFrom_append
                        (chainedFrom_append (chainedFrom_append hepch htgch) hfwch) hnatch
                    · show c₄ ≤ vpcNetwork.base + vpcNetwork.size
                      have htot := lt_two_pow_bitLength (hubVpcTotalAddresses d p)
                      have hextra := singleVpcExtra_le d p
                      rw [hsize]
                      unfold hubVpcTotalAddresses at htot ⊢
                      omega

theorem plan_ok {d : NetworkArchitectureDesignOptions} {p : NetworkArchitectureParameters}
    {cfg : SubnetConfiguration} (h : plan d p = .ok cfg) :
    checkParameters p = .ok () ∧ buildSubnetConfiguration d p = .ok cfg := by
  unfold plan at h
  cases hc : checkParameters p with
  | error e => rw [hc] at h; exact absurd h (by simp)
  | ok u => cases u; exact ⟨rfl, by rw [hc] at h; simpa using h⟩

theorem buildSubnetConfiguration_ok {d : NetworkArchitectureDesignOptions}
    {p : NetworkArchitectureParameters} {cfg : SubnetConfiguration}
    (h : buildSubnetConfiguration d p = .ok cfg) :
    ¬ p.maxRunningNodesPerSubnet < 10 ∧
    ((d.vpcArchitecture = .singleVpc ∧
        ∃ v, buildSingleVpc d p = .ok v ∧ cfg = ⟨v, none⟩) ∨
     (d.vpcArchitecture = .hubAndSpoke ∧
        ∃ dbs hub, buildHubSpokeDbsVpc p = .ok dbs ∧ buildHubVpc d p = .ok hub ∧
          cfg = ⟨dbs, some hub⟩)) := by
  unfold buildSubnetConfiguration at h
  split at h
  · cases h
  · rename_i hnodes
    refine ⟨hnodes, ?_⟩
    cases harch : d.vpcArchitecture with
    | singleVpc =>
      rw [harch] at h
      simp only at h
      cases hs : buildSingleVpc d p with
      | error e => rw [hs] at h; exact absurd h (by simp)
      | ok v =>
        rw [hs] at h
        simp only at h
        cases h
        exact Or.inl ⟨rfl, ⟨v, rfl, rfl⟩⟩
    | hubAndSpoke =>
      rw [harch] at h
      simp only at h
      cases hdbs : buildHubSpokeDbsVpc p with
      | error e => rw [hdbs] at h; exact absurd h (by simp)
      | ok dbs =>
        rw [hdbs] at h
        simp only at h
        cases hhub : buildHubVpc d p with
        | error e => rw [hhub] at h; exact absurd h (by simp)
        | ok hub =>
          rw [hhub] at h
          simp only at h
          cases h
          exact Or.inr ⟨rfl, ⟨dbs, hub, rfl, rfl, rfl⟩⟩

/-- C2 counterexample: at `hostCount = 3`, `hostCount + 5 = 8` is an exact
power of two; the code computes block bits `bit_length(8) = 4` (prefix 28),
while the spec's formula `ceil(log2(next_pow2(8))) = 3` claims prefix 29. -/
theorem c2_prefix_formula_counterexample :
    requiredPrefixLength 3 = 28 ∧
    (32 - (subnetBitLengthSpec 3 : Int)) = 29 ∧
    requiredPrefixLength 3 ≠ 32 - (subnetBitLengthSpec 3 : Int) := by
  refine ⟨by decide, by decide, by decide⟩

/-- C2 (amended): for every positive `hostCount` the calculator returns
`32 - blockBits` where `blockBits = (hostCount + 5).bit_length()`, the least
`k` with `2 ^ k > hostCount + 5` — that is, the smallest power-of-two block
strictly larger than the host count plus the five reserved addresses (one
more bit than the spec's formula whenever `hostCount + 5` is itself a power
of two).  The function is total: it returns on every input, with no error
path. -/
theorem c2_prefix_formula_amended (hostCount : Nat) (_hpos : 0 < hostCount) :
    requiredPrefixLength hostCount = 32 - (bitLength (hostCount + 5) : Int) ∧
    hostCount + 5 < 2 ^ subnetBitLength hostCount ∧
    (∀ k : Nat, hostCount + 5 < 2 ^ k → subnetBitLength hostCount ≤ k) := by
  refine ⟨rfl, lt_two_pow_bitLength _, ?_⟩
  intro k hk
  exact (bitLength_le_iff (hostCount + 5) k).mpr hk

theorem c2_prefix_formula_amended_witness :
    0 < 3 ∧
    (requiredPrefixLength 3 = 32 - (bitLength (3 + 5) : Int) ∧
     3 + 5 < 2 ^ subnetBitLength 3 ∧
     (∀ k : Nat, 3 + 5 < 2 ^ k → subnetBitLength 3 ≤ k)) :=
  ⟨by decide, c2_prefix_formula_amended 3 (by decide)⟩

/-- C9: the returned prefix length is monotonically non-increasing in the
host count: a larger host pool never gets a smaller address block. -/
theorem c9_prefix_length_antitone (h₁ h₂ : Nat) (_hpos : 0 < h₁) (hle : h₁ ≤ h₂) :
    requiredPrefixLength h₂ ≤ requiredPrefixLength h₁ := by
  unfold requiredPrefixLength subnetBitLength
  have := bitLength_mono (Nat.add_le_add_right hle 5)
  omega

theorem c9_prefix_length_antitone_witness :
    (0 < 3 ∧ 3 ≤ 1000) ∧ requiredPrefixLength 1000 ≤ requiredPrefixLength 3 :=
  ⟨⟨by decide, by decide⟩, c9_prefix_length_antitone 3 1000 (by decide) (by decide)⟩

/-- C1: for every design-option set and parameter set the planner accepts,
in every `VpcAndSubnetCIDR` of the resulting plan every subnet of every role
list is fully contained in that VPC's CIDR, and any two distinct subnets
across all role lists of the same `VpcAndSubnetCIDR` are disjoint. -/
theorem c1_subnets_contained_and_disjoint
    (d : NetworkArchitectureDesignOptions) (p : NetworkArchitectureParameters)
    (cfg : SubnetConfiguration) (h : plan d p = .ok cfg)
    (v : VpcAndSubnetCIDR) (hv : v = cfg.databricksVpc ∨ cfg.hubVpc = some v) :
    (∀ s ∈ allSubnets v, containsNet v.vpcCIDR s) ∧
    (∀ a ∈ allSubnets v, ∀ b ∈ allSubnets v, a ≠ b → disjointNets a b) := by
  obtain ⟨-, hbuild⟩ := plan_ok h
  obtain ⟨-, hcase⟩ := buildSubnetConfiguration_ok hbuild
  have main : ∃ fin chainList, ChainedFrom v.vpcCIDR.base chainList fin ∧
      fin ≤ v.vpcCIDR.stop ∧ (∀ s, s ∈ allSubnets v ↔ s ∈ chainList) := by
    rcases hcase with ⟨-, w, hw, hcfg⟩ | ⟨-, dbs, hub, hdbs, hhub, hcfg⟩
    · subst hcfg
      rcases hv with hv | hv
      · subst hv
        obtain ⟨-, -, htgw, -, -, -, -, -, -, -, fin, hchain, hfin⟩ := buildSingleVpc_spec hw
        refine ⟨fin, _, hchain, hfin, ?_⟩
        intro s
        simp only [allSubnets, htgw, optSubnets, Option.getD_none, List.append_nil,
          List.append_assoc, List.mem_append]
      · simp at hv
    · subst hcfg
      rcases hv with hv | hv
      · subst hv
        obtain ⟨-, -, hep, hfw, hnat, -, -, fin, hchain, hfin⟩ := buildHubSpokeDbsVpc_spec hdbs
        refine ⟨fin, _, hchain, hfin, ?_⟩
        intro s
        simp only [allSubnets, hep, hfw, hnat, optSubnets, Option.getD_none, List.append_nil,
          List.nil_append, List.append_assoc, List.mem_append]
      · simp only [SubnetConfiguration.hubVpc] at hv
        cases hv
        obtain ⟨-, -, hcl, -, -, -, -, -, -, -, fin, hchain, hfin⟩ := buildHubVpc_spec hhub
        refine ⟨fin, _, hchain, hfin, ?_⟩
        intro s
        simp only [allSubnets, hcl, optSubnets, Option.getD_none, List.append_nil,
          List.nil_append, List.append_assoc, List.mem_append]
        tauto
  obtain ⟨fin, chainList, hchain, hfin, hiff⟩ := main
  constructor
  · intro s hs
    obtain ⟨h₁, h₂⟩ := chainedFrom_mem_bounds hchain s ((hiff s).mp hs)
    exact ⟨h₁, le_trans h₂ hfin⟩
  · intro a ha b hb hne
    exact chainedFrom_disjoint hchain a ((hiff a).mp ha) b ((hiff b).mp hb) hne

/-- The plan the planner produces for the default design options and default
parameters (single VPC, standard internet access, no private link, no
exfiltration protection, starting at 10.0.0.0 with 512 nodes per subnet and
two availability zones). -/
def defaultPlanResult : SubnetConfiguration :=
  { databricksVpc :=
      { vpcCIDR := { base := 167772160, prefixLen := 19 }
        vpcType := .databricksVpc
        subnetsForClusters := some [{ base := 167772160, prefixLen := 21 },
                                    { base := 167774208, prefixLen := 21 }]
        subnetsForNatGateway := some [{ base := 167776256, prefixLen := 28 }] }
    hubVpc := none }

theorem c1_subnets_contained_and_disjoint_witness :
    plan {} {} = .ok defaultPlanResult ∧
    ((∀ s ∈ allSubnets defaultPlanResult.databricksVpc,
        containsNet defaultPlanResult.databricksVpc.vpcCIDR s) ∧
     (∀ a ∈ allSubnets defaultPlanResult.databricksVpc,
        ∀ b ∈ allSubnets defaultPlanResult.databricksVpc, a ≠ b → disjointNets a b)) :=
  ⟨by rfl,
   c1_subnets_contained_and_disjoint {} {} defaultPlanResult (by rfl)
     defaultPlanResult.databricksVpc (Or.inl rfl)⟩

/-- C5: in every accepted hub-and-spoke plan with data-exfiltration
protection activated and standard internet access, the hub VPC holds exactly
one network-firewall subnet and exactly one NAT-gateway subnet, while the
workload VPC holds one transit-gateway subnet per availability zone. -/
theorem c5_hub_single_az_firewall_and_nat
    (d : NetworkArchitectureDesignOptions) (p : NetworkArchitectureParameters)
    (cfg : SubnetConfiguration)
    (harch : d.vpcArchitecture = .hubAndSpoke)
    (hdep : d.dataExfiltrationProtection = .activated)
    (hint : d.internetAccess = .standard)
    (h : plan d p = .ok cfg) :
    ∃ hub, cfg.hubVpc = some hub ∧
      (∃ fw, hub.subnetsForNetworkFirewall = some fw ∧ fw.length = 1) ∧
      (∃ nat, hub.subnetsForNatGateway = some nat ∧ nat.length = 1) ∧
      (∃ tg, cfg.databricksVpc.subnetsForTransitGateway = some tg ∧
        tg.length = p.availabilityZoneIndexes.length) := by
  obtain ⟨-, hbuild⟩ := plan_ok h
  obtain ⟨-, hcase⟩ := buildSubnetConfiguration_ok hbuild
  rcases hcase with ⟨hsv, -⟩ | ⟨-, dbs, hub, hdbs, hhub, hcfg⟩
  · rw [harch] at hsv; cases hsv
  · subst hcfg
    obtain ⟨-, -, -, -, -, -, hfw, -, hnat, -, -⟩ := buildHubVpc_spec hhub
    obtain ⟨-, -, -, -, -, -, htg, -⟩ := buildHubSpokeDbsVpc_spec hdbs
    have hcond : d.internetAccess ≠ .disabled ∧ d.dataExfiltrationProtection = .activated := by
      rw [hint, hdep]; exact ⟨by simp, rfl⟩
    obtain ⟨fw, hfweq, hfwlen⟩ := hfw hcond
    obtain ⟨nat, hnateq, hnatlen⟩ := hnat hcond.1
    rw [hint] at hfwlen hnatlen
    simp only [if_pos rfl] at hfwlen hnatlen
    exact ⟨hub, rfl, ⟨fw, hfweq, hfwlen⟩, ⟨nat, hnateq, hnatlen⟩, htg⟩

/-- Design options used for the C5 witness: hub-and-spoke, standard internet
access, exfiltration protection activated, no private link. -/
def c5Options : NetworkArchitectureDesignOptions :=
  { vpcArchitecture := .hubAndSpoke, dataExfiltrationProtection := .activated }

/-- Parameters used for the C5 witness: defaults with the hub VPC anchored at
10.1.0.0. -/
def c5Params : NetworkArchitectureParameters :=
  { hubVpcStartingAddress := some 167837696 }

theorem c5_hub_single_az_firewall_and_nat_witness :
    (c5Options.vpcArchitecture = .hubAndSpoke ∧
     c5Options.dataExfiltrationProtection = .activated ∧
     c5Options.internetAccess = .standard) ∧
    ∃ hub, (plan c5Options c5Params).toOption.bind SubnetConfiguration.hubVpc = some hub ∧
      (∃ fw, hub.subnetsForNetworkFirewall = some fw ∧ fw.length = 1) ∧
      (∃ nat, hub.subnetsForNatGateway = some nat ∧ nat.length = 1) := by
  refine ⟨⟨rfl, rfl, rfl⟩, ?_⟩
  have hplan : plan c5Options c5Params =
      .ok { databricksVpc :=
              { vpcCIDR := { base := 167772160, prefixLen := 19 }
                vpcType := .databricksVpc
                subnetsForClusters := some [{ base := 167772160, prefixLen := 21 },
                                            { base := 167774208, prefixLen := 21 }]
                subnetsForTransitGateway := some [{ base := 167776256, prefixLen := 28 },
                                                  { base := 167776272, prefixLen := 28 }] }
            hubVpc := some
              { vpcCIDR := { base := 167837696, prefixLen := 25 }
                vpcType := .hubVpc
                subnetsForNetworkFirewall := some [{ base := 167837728, prefixLen := 28 }]
                subnetsForNatGateway := some [{ base := 167837744, prefixLen := 28 }]
                subnetsForTransitGateway := some [{ base := 167837696, prefixLen := 28 },
                                                  { base := 167837712, prefixLen := 28 }] } } :=
    by rfl
  obtain ⟨hub, hhub, hfw, hnat, -⟩ :=
    c5_hub_single_az_firewall_and_nat c5Options c5Params _ rfl rfl rfl hplan
  exact ⟨hub, by rw [hplan]; exact hhub, hfw, hnat⟩

/-- Design options of the C4 counterexample: hub-and-spoke with private-link
endpoints enabled (standard internet access, no exfiltration protection). -/
def c4Options : NetworkArchitectureDesignOptions :=
  { privateLinkEndpoints := .enabled, vpcArchitecture := .hubAndSpoke }

/-- Parameters of the C4 counterexample: defaults with the hub VPC anchored
at 10.1.0.0 (numerically 167837696). -/
def c4Params : NetworkArchitectureParameters :=
  { hubVpcStartingAddress := some 167837696 }

/-- The hub VPC the planner produces for `c4Options`/`c4Params`: the
endpoint subnets sit at the very start of the hub range and the
transit-gateway subnets only after them. -/
def c4HubVpc : VpcAndSubnetCIDR :=
  { vpcCIDR := { base := 167837696, prefixLen := 25 }
    vpcType := .hubVpc
    subnetsForVpcEndpoints := some [{ base := 167837696, prefixLen := 28 },
                                    { base := 167837712, prefixLen := 28 }]
    subnetsForNatGateway := some [{ base := 167837760, prefixLen := 28 }]
    subnetsForTransitGateway := some [{ base := 167837728, prefixLen := 28 },
                                      { base := 167837744, prefixLen := 28 }] }

/-- The full plan of the C4 counterexample. -/
def c4PlanResult : SubnetConfiguration :=
  { databricksVpc :=
      { vpcCIDR := { base := 167772160, prefixLen := 19 }
        vpcType := .databricksVpc
        subnetsForClusters := some [{ base := 167772160, prefixLen := 21 },
                                    { base := 167774208, prefixLen := 21 }]
        subnetsForTransitGateway := some [{ base := 167776256, prefixLen := 28 },
                                          { base := 167776272, prefixLen := 28 }] }
    hubVpc := some c4HubVpc }

/-- C4 counterexample: with private-link endpoints enabled the hub VPC's
subnets are NOT carved with the transit-gateway subnets first: the claimed
emission order transit-gateway, endpoints, firewall, NAT does not form a
sequential carve from `hubStartingCidr`, because the first transit-gateway
subnet starts 32 addresses past the hub starting address while the endpoint
subnets occupy the start of the range. -/
theorem c4_hub_emission_order_counterexample :
    plan c4Options c4Params = .ok c4PlanResult ∧
    c4PlanResult.hubVpc = some c4HubVpc ∧
    c4Params.hubVpcStartingAddress = some 167837696 ∧
    ¬ ∃ fin, ChainedFrom 167837696
        (optSubnets c4HubVpc.subnetsForTransitGateway ++
         optSubnets c4HubVpc.subnetsForVpcEndpoints ++
         optSubnets c4HubVpc.subnetsForNetworkFirewall ++
         optSubnets c4HubVpc.subnetsForNatGateway) fin := by
  refine ⟨by rfl, rfl, rfl, ?_⟩
  rintro ⟨fin, hchain⟩
  have hbase := hchain.1
  exact absurd hbase (by decide)

/-- C4 (amended): in hub-and-spoke mode the hub VPC's subnets are carved
sequentially from `hubStartingCidr`, but in the emission order VPC-endpoint
subnets first, then transit-gateway subnets, then network-firewall subnets,
then NAT-gateway subnets. -/
theorem c4_hub_emission_order_amended
    (d : NetworkArchitectureDesignOptions) (p : NetworkArchitectureParameters)
    (cfg : SubnetConfiguration) (h : plan d p = .ok cfg)
    (hub : VpcAndSubnetCIDR) (hhub : cfg.hubVpc = some hub) :
    ∃ hubAddr fin, p.hubVpcStartingAddress = some hubAddr ∧
      hub.vpcCIDR.base = hubAddr ∧
      ChainedFrom hubAddr
        (optSubnets hub.subnetsForVpcEndpoints ++
         optSubnets hub.subnetsForTransitGateway ++
         optSubnets hub.subnetsForNetworkFirewall ++
         optSubnets hub.subnetsForNatGateway) fin ∧
      fin ≤ hub.vpcCIDR.stop := by
  obtain ⟨-, hbuild⟩ := plan_ok h
  obtain ⟨-, hcase⟩ := buildSubnetConfiguration_ok hbuild
  rcases hcase with ⟨-, w, -, hcfg⟩ | ⟨-, dbs, hub', -, hhub', hcfg⟩
  · subst hcfg; simp at hhub
  · subst hcfg
    simp only [SubnetConfiguration.hubVpc] at hhub
    cases hhub
    obtain ⟨-, ⟨hubAddr, haddr, hbase⟩, -, -, -, -, -, -, -, -, fin, hchain, hfin⟩ :=
      buildHubVpc_spec hhub'
    exact ⟨hubAddr, fin, haddr, hbase, by rw [hbase] at hchain; exact hchain, hfin⟩

theorem c4_hub_emission_order_amended_witness :
    plan c4Options c4Params = .ok c4PlanResult ∧
    ∃ hubAddr fin, c4Params.hubVpcStartingAddress = some hubAddr ∧
      c4HubVpc.vpcCIDR.base = hubAddr ∧
      ChainedFrom hubAddr
        (optSubnets c4HubVpc.subnetsForVpcEndpoints ++
         optSubnets c4HubVpc.subnetsForTransitGateway ++
         optSubnets c4HubVpc.subnetsForNetworkFirewall ++
         optSubnets c4HubVpc.subnetsForNatGateway) fin ∧
      fin ≤ c4HubVpc.vpcCIDR.stop :=
  ⟨by rfl,
   c4_hub_emission_order_amended c4Options c4Params c4PlanResult (by rfl) c4HubVpc rfl⟩

theorem mkIpNetwork_error {a : Nat} {pfx : Int} {e : PlanError}
    (h : mkIpNetwork a pfx = .error e) : e = .valueError := by
  unfold mkIpNetwork at h
  split at h
  · dsimp only at h
    split at h
    · cases h
    · cases h; rfl
  · cases h; rfl

theorem carveRole_error : ∀ {cnt cur bits : Nat} {e : PlanError},
    carveRole cur cnt bits = .error e → e = .valueError := by
  intro cnt
  induction cnt with
  | zero => intro cur bits e h; simp [carveRole] at h
  | succ k ih =>
    intro cur bits e h
    simp only [carveRole] at h
    split at h
    · rename_i e' hmk
      cases h
      exact mkIpNetwork_error hmk
    · split at h
      · split at h
        · rename_i e' hrest
          cases h
          exact ih hrest
        · cases h
      · cases h; rfl

theorem carveOptionalRole_error (cond : Prop) [Decidable cond]
    {cur cnt bits : Nat} {e : PlanError}
    (h : carveOptionalRole cond cur cnt bits = .error e) : e = .valueError := by
  unfold carveOptionalRole at h
  split at h
  · split at h
    · rename_i e' hcar
      cases h
      exact carveRole_error hcar
    · cases h
  · cases h

theorem buildSingleVpc_configError {d : NetworkArchitectureDesignOptions}
    {p : NetworkArchitectureParameters} {m : String}
    (h : buildSingleVpc d p = .error (.configError m)) :
    d.internetAccess = .disabled ∧ d.dataExfiltrationProtection = .activated := by
  unfold buildSingleVpc at h
  dsimp only at h
  split at h
  · rename_i hguard; exact hguard
  · exfalso
    cases hmk : mkIpNetwork p.vpcCidrStartingAddress
        (32 - (bitLength (singleVpcTotalAddresses d p) : Int)) with
    | error e =>
      rw [hmk] at h
      simp only at h
      cases h
      cases mkIpNetwork_error hmk
    | ok vpcNetwork =>
      rw [hmk] at h
      simp only at h
      cases hcl : carveRole vpcNetwork.base p.availabilityZoneIndexes.length
          (subnetBitLength (2 * p.maxRunningNodesPerSubnet)) with
      | error e =>
        rw [hcl] at h
        simp only at h
        cases h
        cases carveRole_error hcl
      | ok pr₁ =>
        obtain ⟨cl, c₁⟩ := pr₁
        rw [hcl] at h
        simp only at h
        cases hep : carveOptionalRole (d.privateLinkEndpoints = .enabled) c₁
            p.availabilityZoneIndexes.length
            (subnetBitLength
              (if p.maxVpcEndpointsPerSubnet < 10 then 10 else p.maxVpcEndpointsPerSubnet)) with
        | error e =>
          rw [hep] at h
          simp only at h
          cases h
          cases carveOptionalRole_error _ hep
        | ok pr₂ =>
          obtain ⟨epo, c₂⟩ := pr₂
          rw [hep] at h
          simp only at h
          cases hfw : carveOptionalRole
              (d.internetAccess ≠ .disabled ∧ d.dataExfiltrationProtection = .activated) c₂
              (if d.internetAccess = .standard then 1 else p.availabilityZoneIndexes.length)
              (subnetBitLength 10) with
          | error e =>
            rw [hfw] at h
            simp only at h
            cases h
            cases carveOptionalRole_error _ hfw
          | ok pr₃ =>
            obtain ⟨fwo, c₃⟩ := pr₃
            rw [hfw] at h
            simp only at h
            cases hnat : carveOptionalRole (d.internetAccess ≠ .disabled) c₃
                (if d.internetAccess = .standard then 1 else p.availabilityZoneIndexes.length)
                (subnetBitLength 10) with
            | error e =>
              rw [hnat] at h
              simp only at h
              cases h
              cases carveOptionalRole_error _ hnat
            | ok pr₄ =>
              obtain ⟨nato, c₄⟩ := pr₄
              rw [hnat] at h
              simp only at h
              cases h

theorem buildHubSpokeDbsVpc_error {p : NetworkArchitectureParameters} {e : PlanError}
    (h : buildHubSpokeDbsVpc p = .error e) : e = .valueError := by
  unfold buildHubSpokeDbsVpc at h
  dsimp only at h
  cases hmk : mkIpNetwork p.vpcCidrStartingAddress
      (32 - (bitLength (hubSpokeDbsTotalAddresses p) : Int)) with
  | error e' =>
    rw [hmk] at h
    simp only at h
    cases h
    exact mkIpNetwork_error hmk
  | ok vpcNetwork =>
    rw [hmk] at h
    simp only at h
    cases hcl : carveRole vpcNetwork.base p.availabilityZoneIndexes.length
        (subnetBitLength (2 * p.maxRunningNodesPerSubnet)) with
    | error e' =>
      rw [hcl] at h
      simp only at h
      cases h
      exact carveRole_error hcl
    | ok pr₁ =>
      obtain ⟨cl, c₁⟩ := pr₁
      rw [hcl] at h
      simp only at h
      cases htg : carveRole c₁ p.availabilityZoneIndexes.length (subnetBitLength 10) with
      | error e' =>
        rw [htg] at h
        simp only at h
        cases h
        exact carveRole_error htg
      | ok pr₂ =>
        obtain ⟨tg, c₂⟩ := pr₂
        rw [htg] at h
        simp only at h
        cases h

theorem buildHubVpc_configError {d : NetworkArchitectureDesignOptions}
    {p : NetworkArchitectureParameters} {m : String}
    (h : buildHubVpc d p = .error (.configError m)) :
    p.hubVpcStartingAddress = none ∨
    (d.privateLinkEndpoints ≠ .enabled ∧ d.internetAccess = .disabled) ∨
    (d.internetAccess = .disabled ∧ d.dataExfiltrationProtection = .activated) := by
  unfold buildHubVpc at h
  dsimp only at h
  split at h
  · rename_i hnone
    exact Or.inl hnone
  · rename_i hubAddress hhub
    split at h
    · rename_i hguard
      exact Or.inr (Or.inl hguard)
    · split at h
      · rename_i hguard
        exact Or.inr (Or.inr hguard)
      · exfalso
        cases hmk : mkIpNetwork hubAddress
            (32 - (bitLength (hubVpcTotalAddresses d p) : Int)) with
        | error e =>
          rw [hmk] at h
          simp only at h
          cases h
          cases mkIpNetwork_error hmk
        | ok vpcNetwork =>
          rw [hmk] at h
          simp only at h
          cases hep : carveOptionalRole (d.privateLinkEndpoints = .enabled) vpcNetwork.base
              p.availabilityZoneIndexes.length
              (subnetBitLength
                (if p.maxVpcEndpointsPerSubnet < 10 then 10 else p.maxVpcEndpointsPerSubnet)) with
          | error e =>
            rw [hep] at h
            simp only at h
            cases h
            cases carveOptionalRole_error _ hep
          | ok pr₁ =>
            obtain ⟨epo, c₁⟩ := pr₁
            rw [hep] at h
            simp only at h
            cases htg : carveRole c₁ p.availabilityZoneIndexes.length (subnetBitLength 10) with
            | error e =>
              rw [htg] at h
              simp only at h
              cases h
              cases carveRole_error htg
            | ok pr₂ =>
              obtain ⟨tg, c₂⟩ := pr₂
              rw [htg] at h
              simp only at h
              cases hfw : carveOptionalRole
                  (d.internetAccess ≠ .disabled ∧ d.dataExfiltrationProtection = .activated) c₂
                  (if d.internetAccess = .standard then 1 else p.availabilityZoneIndexes.length)
                  (subnetBitLength 10) with
              | error e =>
                rw [hfw] at h
                simp only at h
                cases h
                cases carveOptionalRole_error _ hfw
              | ok pr₃ =>
                obtain ⟨fwo, c₃⟩ := pr₃
                rw [hfw] at h
                simp only at h
                cases hnat : carveOptionalRole (d.internetAccess ≠ .disabled) c₃
                    (if d.internetAccess = .standard then 1
                     else p.availabilityZoneIndexes.length)
                    (subnetBitLength 10) with
                | error e =>
                  rw [hnat] at h
                  simp only at h
                  cases h
                  cases carveOptionalRole_error _ hnat
                | ok pr₄ =>
                  obtain ⟨nato, c₄⟩ := pr₄
                  rw [hnat] at h
                  simp only at h
                  cases h

theorem nodup_iff_dedup_length {l : List Nat} :
    l.Nodup ↔ l.dedup.length = l.length := by
  constructor
  · intro h
    rw [List.dedup_eq_self.mpr h]
  · intro h
    have hsub : l.dedup.Sublist l := List.dedup_sublist l
    have : l.dedup = l := hsub.eq_of_length h
    rw [← List.dedup_eq_self, this]

theorem checkParameters_error_cases {p : NetworkArchitectureParameters} {e : PlanError}
    (h : checkParameters p = .error e) :
    (∃ m, e = .configError m) ∧
    (p.availabilityZoneIndexes.length < 2 ∨ ¬ p.availabilityZoneIndexes.Nodup) := by
  unfold checkParameters at h
  split at h
  · rename_i hlen
    cases h
    exact ⟨⟨_, rfl⟩, Or.inl hlen⟩
  · split at h
    · rename_i hlen hdup
      cases h
      refine ⟨⟨_, rfl⟩, Or.inr ?_⟩
      intro hnodup
      exact hdup (nodup_iff_dedup_length.mp hnodup).symm
    · cases h

theorem checkParameters_fails {p : NetworkArchitectureParameters}
    (hc : p.availabilityZoneIndexes.length < 2 ∨ ¬ p.availabilityZoneIndexes.Nodup) :
    ∃ e, checkParameters p = .error e := by
  unfold checkParameters
  by_cases hlen : p.availabilityZoneIndexes.length < 2
  · rw [if_pos hlen]
    exact ⟨_, rfl⟩
  · rw [if_neg hlen]
    have hdup : p.availabilityZoneIndexes.length ≠ p.availabilityZoneIndexes.dedup.length := by
      rcases hc with hc | hc
      · exact absurd hc hlen
      · intro heq
        exact hc (nodup_iff_dedup_length.mpr heq.symm)
    rw [if_pos hdup]
    exact ⟨_, rfl⟩

theorem buildSingleVpc_guard_fails {d : NetworkArchitectureDesignOptions}
    {p : NetworkArchitectureParameters}
    (hc : d.internetAccess = .disabled ∧ d.dataExfiltrationProtection = .activated) :
    ∃ e, buildSingleVpc d p = .error e := by
  unfold buildSingleVpc
  dsimp only
  rw [if_pos hc]
  exact ⟨_, rfl⟩

theorem buildHubVpc_fails {d : NetworkArchitectureDesignOptions}
    {p : NetworkArchitectureParameters}
    (hc : p.hubVpcStartingAddress = none ∨
      (d.privateLinkEndpoints ≠ .enabled ∧ d.internetAccess = .disabled) ∨
      (d.internetAccess = .disabled ∧ d.dataExfiltrationProtection = .activated)) :
    ∃ e, buildHubVpc d p = .error e := by
  unfold buildHubVpc
  dsimp only
  cases hh : p.hubVpcStartingAddress with
  | none =>
    simp only
    exact ⟨_, rfl⟩
  | some hubAddress =>
    simp only
    by_cases hg₁ : d.privateLinkEndpoints ≠ .enabled ∧ d.internetAccess = .disabled
    · rw [if_pos hg₁]
      exact ⟨_, rfl⟩
    · rw [if_neg hg₁]
      have hg₂ : d.internetAccess = .disabled ∧ d.dataExfiltrationProtection = .activated := by
        rcases hc with hc | hc | hc
        · rw [hh] at hc; cases hc
        · exact absurd hc hg₁
        · exact hc
      rw [if_pos hg₂]
      exact ⟨_, rfl⟩

theorem buildSubnetConfiguration_fails {d : NetworkArchitectureDesignOptions}
    {p : NetworkArchitectureParameters}
    (hc : p.maxRunningNodesPerSubnet < 10 ∨
      (d.vpcArchitecture = .singleVpc ∧ ∃ e, buildSingleVpc d p = .error e) ∨
      (d.vpcArchitecture = .hubAndSpoke ∧
        ∀ dbs, buildHubSpokeDbsVpc p = .ok dbs → ∃ e, buildHubVpc d p = .error e)) :
    ∃ e, buildSubnetConfiguration d p = .error e := by
  unfold buildSubnetConfiguration
  by_cases hnodes : p.maxRunningNodesPerSubnet < 10
  · rw [if_pos hnodes]
    exact ⟨_, rfl⟩
  · rw [if_neg hnodes]
    rcases hc with hc | ⟨harch, e, he⟩ | ⟨harch, hhub⟩
    · exact absurd hc hnodes
    · rw [harch]
      simp only
      rw [he]
      exact ⟨e, rfl⟩
    · rw [harch]
      simp only
      cases hdbs : buildHubSpokeDbsVpc p with
      | error e => exact ⟨e, rfl⟩
      | ok dbs =>
        obtain ⟨e, he⟩ := hhub dbs hdbs
        rw [he]
        exact ⟨e, rfl⟩

/-- The six input conditions the claim lists as the configuration-error
cases. -/
def configRejected (d : NetworkArchitectureDesignOptions)
    (p : NetworkArchitectureParameters) : Prop :=
  p.availabilityZoneIndexes.length < 2 ∨
  ¬ p.availabilityZoneIndexes.Nodup ∨
  p.maxRunningNodesPerSubnet < 10 ∨
  (d.vpcArchitecture = .hubAndSpoke ∧ p.hubVpcStartingAddress = none) ∨
  (d.dataExfiltrationProtection = .activated ∧ d.internetAccess = .disabled) ∨
  (d.vpcArchitecture = .hubAndSpoke ∧ d.privateLinkEndpoints = .disabled ∧
    d.internetAccess = .disabled)

theorem plan_configError {d : NetworkArchitectureDesignOptions}
    {p : NetworkArchitectureParameters} {m : String}
    (h : plan d p = .error (.configError m)) : configRejected d p := by
  unfold plan at h
  cases hc : checkParameters p with
  | error e =>
    obtain ⟨-, hcond⟩ := checkParameters_error_cases hc
    rcases hcond with hcond | hcond
    · exact Or.inl hcond
    · exact Or.inr (Or.inl hcond)
  | ok u =>
    cases u
    rw [hc] at h
    simp only at h
    unfold buildSubnetConfiguration at h
    split at h
    · rename_i hnodes
      exact Or.inr (Or.inr (Or.inl hnodes))
    · rename_i hnodes
      cases harch : d.vpcArchitecture with
      | singleVpc =>
        rw [harch] at h
        simp only at h
        cases hs : buildSingleVpc d p with
        | error e =>
          rw [hs] at h
          simp only at h
          cases h
          obtain ⟨h₁, h₂⟩ := buildSingleVpc_configError hs
          exact Or.inr (Or.inr (Or.inr (Or.inr (Or.inl ⟨h₂, h₁⟩))))
        | ok v =>
          rw [hs] at h
          simp only at h
          cases h
      | hubAndSpoke =>
        rw [harch] at h
        simp only at h
        cases hdbs : buildHubSpokeDbsVpc p with
        | error e =>
          rw [hdbs] at h
          simp only at h
          cases h
          cases buildHubSpokeDbsVpc_error hdbs
        | ok dbs =>
          rw [hdbs] at h
          simp only at h
          cases hhub : buildHubVpc d p with
          | error e =>
            rw [hhub] at h
            simp only at h
            cases h
            rcases buildHubVpc_configError hhub with hcond | ⟨hpl, hint⟩ | ⟨hint, hdep⟩
            · exact Or.inr (Or.inr (Or.inr (Or.inl ⟨harch, hcond⟩)))
            · have hpl' : d.privateLinkEndpoints = .disabled := by
                cases hp : d.privateLinkEndpoints with
                | enabled => exact absurd hp hpl
                | disabled => rfl
              exact Or.inr (Or.inr (Or.inr (Or.inr (Or.inr ⟨harch, hpl', hint⟩))))
            · exact Or.inr (Or.inr (Or.inr (Or.inr (Or.inl ⟨hdep, hint⟩))))
          | ok hub =>
            rw [hhub] at h
            simp only at h
            cases h

theorem plan_fails_of_rejected {d : NetworkArchitectureDesignOptions}
    {p : NetworkArchitectureParameters} (hc : configRejected d p) :
    ∃ e, plan d p = .error e := by
  unfold plan
  cases hch : checkParameters p with
  | error e => exact ⟨e, rfl⟩
  | ok u =>
    cases u
    simp only
    rcases hc with hc | hc | hc | ⟨harch, hnone⟩ | ⟨hdep, hint⟩ | ⟨harch, hpl, hint⟩
    · obtain ⟨e, he⟩ := checkParameters_fails (Or.inl hc)
      rw [hch] at he
      cases he
    · obtain ⟨e, he⟩ := checkParameters_fails (Or.inr hc)
      rw [hch] at he
      cases he
    · exact buildSubnetConfiguration_fails (Or.inl hc)
    · refine buildSubnetConfiguration_fails (Or.inr (Or.inr ⟨harch, ?_⟩))
      intro dbs _
      exact buildHubVpc_fails (Or.inl hnone)
    · cases harch : d.vpcArchitecture with
      | singleVpc =>
        refine buildSubnetConfiguration_fails (Or.inr (Or.inl ⟨harch, ?_⟩))
        exact buildSingleVpc_guard_fails ⟨hint, hdep⟩
      | hubAndSpoke =>
        refine buildSubnetConfiguration_fails (Or.inr (Or.inr ⟨harch, ?_⟩))
        intro dbs _
        exact buildHubVpc_fails (Or.inr (Or.inr ⟨hint, hdep⟩))
    · refine buildSubnetConfiguration_fails (Or.inr (Or.inr ⟨harch, ?_⟩))
      intro dbs _
      refine buildHubVpc_fails (Or.inr (Or.inl ⟨?_, hint⟩))
      rw [hpl]
      simp

/-- Design options of the C3 counterexample: hub-and-spoke mode with
defaults otherwise. -/
def c3Options : NetworkArchitectureDesignOptions := { vpcArchitecture := .hubAndSpoke }

/-- Parameters of the C3 counterexample: the hub starting address is absent
(a listed configuration-error case) but the workload starting address
10.0.0.1 is misaligned, so the carve of the workload VPC raises the
`ipaddress` ValueError before the missing-hub-address check is reached. -/
def c3Params : NetworkArchitectureParameters := { vpcCidrStartingAddress := 167772161 }

/-- C3 counterexample: an input inside the claim's listed set (hub-and-spoke
with `hubStartingCidr` absent) on which planning fails with the `ipaddress`
ValueError rather than a configuration error, because the workload VPC is
carved before the missing-hub-address check; so the listed cases do not
characterise "fails with a configuration error". -/
theorem c3_error_cases_counterexample :
    configRejected c3Options c3Params ∧
    c3Options.vpcArchitecture = .hubAndSpoke ∧
    c3Params.hubVpcStartingAddress = none ∧
    plan c3Options c3Params = .error .valueError := by
  refine ⟨?_, rfl, rfl, by rfl⟩
  right; right; right; left
  exact ⟨rfl, rfl⟩

/-- C3 (amended): a configuration error is raised only in the six listed
input cases, and every input in a listed case makes planning fail — with the
configuration error unless a CIDR ValueError (raised by `ipaddress` for a
misaligned or invalid starting address) preempts it; inputs outside the
listed cases can still fail, but only with that ValueError. -/
theorem c3_error_cases_amended (d : NetworkArchitectureDesignOptions)
    (p : NetworkArchitectureParameters) :
    (∀ m, plan d p = .error (.configError m) → configRejected d p) ∧
    (configRejected d p → ∃ e, plan d p = .error e) :=
  ⟨fun _ h => plan_configError h, plan_fails_of_rejected⟩

theorem c3_error_cases_amended_witness :
    configRejected c3Options c3Params ∧ ∃ e, plan c3Options c3Params = .error e :=
  ⟨Or.inr (Or.inr (Or.inr (Or.inl ⟨rfl, rfl⟩))),
   (c3_error_cases_amended c3Options c3Params).2
     (Or.inr (Or.inr (Or.inr (Or.inl ⟨rfl, rfl⟩))))⟩

/-- Models a per-availability-zone loop reading `l[0], ..., l[count-1]`:
returns `none` exactly when some read is out of range. -/
def rangeAccess (l : List IpNetwork) : Nat → Option Unit
  | 0 => some ()
  | k + 1 =>
    match rangeAccess l k with
    | none => none
    | some _ =>
      match l.get? k with
      | none => none
      | some _ => some ()

theorem rangeAccess_isSome {l : List IpNetwork} {count : Nat} (h : count ≤ l.length) :
    rangeAccess l count = some () := by
  induction count with
  | zero => rfl
  | succ k ih =>
    have hk : k ≤ l.length := by omega
    have hget : ∃ x, l.get? k = some x := by
      have : k < l.length := by omega
      exact ⟨l.get ⟨k, this⟩, List.get?_eq_get this⟩
    obtain ⟨x, hx⟩ := hget
    simp only [rangeAccess, ih hk, hx]

/-- The reads `CloudInfraBuilderForWorkspace.__defineNetworking` performs on
the planner's result (`CloudInfraBuilderForWorkspace.py`, lines 526-922):
the VPC-type dictionary lookups, the role-keyed subnet dictionary lookups,
and the per-availability-zone list indexing, in source order.  The firewall
and NAT loops break after their first iteration when `internetAccess` is
`STANDARD`, so those lists are indexed only at position 0 in that case.
Returns `none` exactly when some read would raise a `KeyError` or
`IndexError`. -/
def networkingSubnetAccesses (d : NetworkArchitectureDesignOptions)
    (p : NetworkArchitectureParameters) (cfg : SubnetConfiguration) : Option Unit :=
  match cfg.vpcConfig .databricksVpc with
  | none => none
  | some dbs =>
    match (if d.vpcArchitecture = .hubAndSpoke then
             (cfg.vpcConfig .hubVpc).map fun _ => ()
           else some ()) with
    | none => none
    | some _ =>
      match dbs.subnetCIDRs .clusters with
      | none => none
      | some clusterSubnets =>
        match rangeAccess clusterSubnets p.availabilityZoneIndexes.length with
        | none => none
        | some _ =>
          match (if d.vpcArchitecture = .hubAndSpoke then
                   match dbs.subnetCIDRs .transitgateway with
                   | none => none
                   | some dbsTgw =>
                     match rangeAccess dbsTgw p.availabilityZoneIndexes.length with
                     | none => none
                     | some _ =>
                       match cfg.vpcConfig .hubVpc with
                       | none => none
                       | some hub =>
                         match hub.subnetCIDRs .transitgateway with
                         | none => none
                         | some hubTgw =>
                           rangeAccess hubTgw p.availabilityZoneIndexes.length
                 else some ()) with
          | none => none
          | some _ =>
            match (if d.privateLinkEndpoints = .enabled then
                     match cfg.vpcConfig
                         (if d.vpcArchitecture = .hubAndSpoke then .hubVpc
                          else .databricksVpc) with
                     | none => none
                     | some src =>
                       match src.subnetCIDRs .vpcendpoints with
                       | none => none
                       | some ep => rangeAccess ep p.availabilityZoneIndexes.length
                   else some ()) with
            | none => none
            | some _ =>
              match (if d.dataExfiltrationProtection = .activated then
                       match cfg.vpcConfig
                           (if d.vpcArchitecture = .hubAndSpoke then .hubVpc
                            else .databricksVpc) with
                       | none => none
                       | some src =>
                         match src.subnetCIDRs .networkfirewall with
                         | none => none
                         | some fw =>
                           rangeAccess fw
                             (if d.internetAccess = .standard then 1
                              else p.availabilityZoneIndexes.length)
                     else some ()) with
              | none => none
              | some _ =>
                if d.internetAccess ≠ .disabled then
                  match cfg.vpcConfig
                      (if d.vpcArchitecture = .hubAndSpoke then .hubVpc
                       else .databricksVpc) with
                  | none => none
                  | some src =>
                    match src.subnetCIDRs .natgateway with
                    | none => none
                    | some nat =>
                      rangeAccess nat
                        (if d.internetAccess = .standard then 1
                         else p.availabilityZoneIndexes.length)
                else some ()

/-- C10: for every accepted plan, every read `__defineNetworking` makes into
the plan's role-keyed subnet mapping and its per-availability-zone subnet
lists is defined: every role key read is present for the VPC it is read
from, and every list index is in range — under standard internet access the
single-element NAT and firewall lists are only indexed at position 0 because
those loops break after their first iteration. -/
theorem c10_networking_accesses_defined (d : NetworkArchitectureDesignOptions)
    (p : NetworkArchitectureParameters) (cfg : SubnetConfiguration)
    (h : plan d p = .ok cfg) :
    networkingSubnetAccesses d p cfg = some () := by
  have hnotboth : ¬ (d.dataExfiltrationProtection = .activated ∧
      d.internetAccess = .disabled) := by
    rintro ⟨h₁, h₂⟩
    obtain ⟨e, he⟩ :=
      plan_fails_of_rejected (d := d) (p := p)
        (Or.inr (Or.inr (Or.inr (Or.inr (Or.inl ⟨h₁, h₂⟩)))))
    rw [h] at he
    cases he
  obtain ⟨-, hbuild⟩ := plan_ok h
  obtain ⟨-, hcase⟩ := buildSubnetConfiguration_ok hbuild
  rcases hcase with ⟨harch, v, hv, hcfg⟩ | ⟨harch, dbs, hub, hdbs, hhub, hcfg⟩
  · subst hcfg
    obtain ⟨-, -, htgw, ⟨cl, hcl, hcllen⟩, hepS, hepN, hfwS, hfwN, hnatS, hnatN, -⟩ :=
      buildSingleVpc_spec hv
    have hra₁ : rangeAccess cl p.availabilityZoneIndexes.length = some () :=
      rangeAccess_isSome (le_of_eq hcllen.symm)
    unfold networkingSubnetAccesses
    by_cases hpl : d.privateLinkEndpoints = .enabled
    · obtain ⟨ep, hepeq, heplen⟩ := hepS hpl
      have hraep := rangeAccess_isSome (le_of_eq heplen.symm)
      by_cases hdep : d.dataExfiltrationProtection = .activated
      · have hnd : d.internetAccess ≠ .disabled := fun hd => hnotboth ⟨hdep, hd⟩
        obtain ⟨fw, hfweq, hfwlen⟩ := hfwS ⟨hnd, hdep⟩
        have hrafw := rangeAccess_isSome (le_of_eq hfwlen.symm)
        obtain ⟨nat, hnateq, hnatlen⟩ := hnatS hnd
        have hranat := rangeAccess_isSome (le_of_eq hnatlen.symm)
        simp [SubnetConfiguration.vpcConfig, VpcAndSubnetCIDR.subnetCIDRs, harch, hpl, hdep,
          hnd, hcl, hra₁, hepeq, hraep, hfweq, hrafw, hnateq, hranat]
      · by_cases hnd : d.internetAccess = .disabled
        · simp [SubnetConfiguration.vpcConfig, VpcAndSubnetCIDR.subnetCIDRs, harch, hpl, hdep,
            hnd, hcl, hra₁, hepeq, hraep]
        · obtain ⟨nat, hnateq, hnatlen⟩ := hnatS hnd
          have hranat := rangeAccess_isSome (le_of_eq hnatlen.symm)
          simp [SubnetConfiguration.vpcConfig, VpcAndSubnetCIDR.subnetCIDRs, harch, hpl, hdep,
            hnd, hcl, hra₁, hepeq, hraep, hnateq, hranat]
    · by_cases hdep : d.dataExfiltrationProtection = .activated
      · have hnd : d.internetAccess ≠ .disabled := fun hd => hnotboth ⟨hdep, hd⟩
        obtain ⟨fw, hfweq, hfwlen⟩ := hfwS ⟨hnd, hdep⟩
        have hrafw := rangeAccess_isSome (le_of_eq hfwlen.symm)
        obtain ⟨nat, hnateq, hnatlen⟩ := hnatS hnd
        have hranat := rangeAccess_isSome (le_of_eq hnatlen.symm)
        simp [SubnetConfiguration.vpcConfig, VpcAndSubnetCIDR.subnetCIDRs, harch, hpl, hdep,
          hnd, hcl, hra₁, hfweq, hrafw, hnateq, hranat]
      · by_cases hnd : d.internetAccess = .disabled
        · simp [SubnetConfiguration.vpcConfig, VpcAndSubnetCIDR.subnetCIDRs, harch, hpl, hdep,
            hnd, hcl, hra₁]
        · obtain ⟨nat, hnateq, hnatlen⟩ := hnatS hnd
          have hranat := rangeAccess_isSome (le_of_eq hnatlen.symm)
          simp [SubnetConfiguration.vpcConfig, VpcAndSubnetCIDR.subnetCIDRs, harch, hpl, hdep,
            hnd, hcl, hra₁, hnateq, hranat]
  · subst hcfg
    obtain ⟨-, -, hdepf, hdfw, hdnat, ⟨cl, hcl, hcllen⟩, ⟨dtg, hdtg, hdtglen⟩, -⟩ :=
      buildHubSpokeDbsVpc_spec hdbs
    obtain ⟨-, -, hhcl, ⟨htg, hhtg, hhtglen⟩, hepS, hepN, hfwS, hfwN, hnatS, hnatN, -⟩ :=
      buildHubVpc_spec hhub
    have hra₁ : rangeAccess cl p.availabilityZoneIndexes.length = some () :=
      rangeAccess_isSome (le_of_eq hcllen.symm)
    have hra₂ : rangeAccess dtg p.availabilityZoneIndexes.length = some () :=
      rangeAccess_isSome (le_of_eq hdtglen.symm)
    have hra₃ : rangeAccess htg p.availabilityZoneIndexes.length = some () :=
      rangeAccess_isSome (le_of_eq hhtglen.symm)
    unfold networkingSubnetAccesses
    by_cases hpl : d.privateLinkEndpoints = .enabled
    · obtain ⟨ep, hepeq, heplen⟩ := hepS hpl
      have hraep := rangeAccess_isSome (le_of_eq heplen.symm)
      by_cases hdep : d.dataExfiltrationProtection = .activated
      · have hnd : d.internetAccess ≠ .disabled := fun hd => hnotboth ⟨hdep, hd⟩
        obtain ⟨fw, hfweq, hfwlen⟩ := hfwS ⟨hnd, hdep⟩
        have hrafw := rangeAccess_isSome (le_of_eq hfwlen.symm)
        obtain ⟨nat, hnateq, hnatlen⟩ := hnatS hnd
        have hranat := rangeAccess_isSome (le_of_eq hnatlen.symm)
        simp [SubnetConfiguration.vpcConfig, VpcAndSubnetCIDR.subnetCIDRs, harch, hpl, hdep,
          hnd, hcl, hra₁, hdtg, hra₂, hhtg, hra₃, hepeq, hraep, hfweq, hrafw, hnateq, hranat]
      · by_cases hnd : d.internetAccess = .disabled
        · simp [SubnetConfiguration.vpcConfig, VpcAndSubnetCIDR.subnetCIDRs, harch, hpl, hdep,
            hnd, hcl, hra₁, hdtg, hra₂, hhtg, hra₃, hepeq, hraep]
        · obtain ⟨nat, hnateq, hnatlen⟩ := hnatS hnd
          have hranat := rangeAccess_isSome (le_of_eq hnatlen.symm)
          simp [SubnetConfiguration.vpcConfig, VpcAndSubnetCIDR.subnetCIDRs, harch, hpl, hdep,
            hnd, hcl, hra₁, hdtg, hra₂, hhtg, hra₃, hepeq, hraep, hnateq, hranat]
    · by_cases hdep : d.dataExfiltrationProtection = .activated
      · have hnd : d.internetAccess ≠ .disabled := fun hd => hnotboth ⟨hdep, hd⟩
        obtain ⟨fw, hfweq, hfwlen⟩ := hfwS ⟨hnd, hdep⟩
        have hrafw := rangeAccess_isSome (le_of_eq hfwlen.symm)
        obtain ⟨nat, hnateq, hnatlen⟩ := hnatS hnd
        have hranat := rangeAccess_isSome (le_of_eq hnatlen.symm)
        simp [SubnetConfiguration.vpcConfig, VpcAndSubnetCIDR.subnetCIDRs, harch, hpl, hdep,
          hnd, hcl, hra₁, hdtg, hra₂, hhtg, hra₃, hfweq, hrafw, hnateq, hranat]
      · by_cases hnd : d.internetAccess = .disabled
        · simp [SubnetConfiguration.vpcConfig, VpcAndSubnetCIDR.subnetCIDRs, harch, hpl, hdep,
            hnd, hcl, hra₁, hdtg, hra₂, hhtg, hra₃]
        · obtain ⟨nat, hnateq, hnatlen⟩ := hnatS hnd
          have hranat := rangeAccess_isSome (le_of_eq hnatlen.symm)
          simp [SubnetConfiguration.vpcConfig, VpcAndSubnetCIDR.subnetCIDRs, harch, hpl, hdep,
            hnd, hcl, hra₁, hdtg, hra₂, hhtg, hra₃, hnateq, hranat]

theorem c10_networking_accesses_defined_witness :
    plan {} {} = .ok defaultPlanResult ∧
    networkingSubnetAccesses {} {} defaultPlanResult = some () :=
  ⟨by rfl, c10_networking_accesses_defined {} {} defaultPlanResult (by rfl)⟩

/-- A JSON-like value, used to embed the CloudFormation policy fragments that
`CustomerManagedKeys.py` builds as Python dictionaries. -/
inductive JsonValue where
  | jstr (s : String)
  | jarr (xs : List JsonValue)
  | jobj (fields : List (String × JsonValue))

/-- Embeds `managedServicesPolicyStatement` (`CustomerManagedKeys.py`,
lines 4-23). -/
def managedServicesPolicyStatement (databricksIdRefName : String) : List JsonValue :=
  [.jobj [
    ("Sid", .jstr "Allow Databricks to use KMS key for managed services in the control plane"),
    ("Effect", .jstr "Allow"),
    ("Principal", .jobj [("AWS", .jstr "arn:aws:iam::414351767826:root")]),
    ("Action", .jarr [.jstr "kms:Encrypt", .jstr "kms:Decrypt"]),
    ("Resource", .jstr "*"),
    ("Condition", .jobj [
      ("StringEquals", .jobj [
        ("aws:PrincipalTag/DatabricksAccountId",
          .jarr [.jobj [("Ref", .jstr databricksIdRefName)]])])])]]

/-- Embeds `workspaceStoragePolicyStatement` (`CustomerManagedKeys.py`,
lines 26-88). -/
def workspaceStoragePolicyStatement (databricksIdRefName iamRoleResourceName : String) :
    List JsonValue :=
  [.jobj [
    ("Sid", .jstr "Allow Databricks to use KMS key for DBFS"),
    ("Effect", .jstr "Allow"),
    ("Principal", .jobj [("AWS", .jstr "arn:aws:iam::414351767826:root")]),
    ("Action", .jarr [.jstr "kms:Encrypt", .jstr "kms:Decrypt", .jstr "kms:ReEncrypt*",
                      .jstr "kms:GenerateDataKey*", .jstr "kms:DescribeKey"]),
    ("Resource", .jstr "*"),
    ("Condition", .jobj [
      ("StringEquals", .jobj [
        ("aws:PrincipalTag/DatabricksAccountId",
          .jarr [.jobj [("Ref", .jstr databricksIdRefName)]])])])],
   .jobj [
    ("Sid", .jstr "Allow Databricks to use KMS key for DBFS (Grants)"),
    ("Effect", .jstr "Allow"),
    ("Principal", .jobj [("AWS", .jstr "arn:aws:iam::414351767826:root")]),
    ("Action", .jarr [.jstr "kms:CreateGrant", .jstr "kms:ListGrants", .jstr "kms:RevokeGrant"]),
    ("Resource", .jstr "*"),
    ("Condition", .jobj [
      ("Bool", .jobj [("kms:GrantIsForAWSResource", .jstr "true")]),
      ("StringEquals", .jobj [
        ("aws:PrincipalTag/DatabricksAccountId",
          .jarr [.jobj [("Ref", .jstr databricksIdRefName)]])])])],
   .jobj [
    ("Sid", .jstr "Allow Databricks to use KMS key for EBS"),
    ("Effect", .jstr "Allow"),
    ("Principal", .jobj [("AWS", .jobj [("Fn::GetAtt", .jstr (iamRoleResourceName ++ ".Arn"))])]),
    ("Action", .jarr [.jstr "kms:Decrypt", .jstr "kms:GenerateDataKey*",
                      .jstr "kms:CreateGrant", .jstr "kms:DescribeKey"]),
    ("Resource", .jstr "*"),
    ("Condition", .jobj [
      ("ForAnyValue:StringLike", .jobj [("kms:ViaService", .jstr "ec2.*.amazonaws.com")])])]]

/-- Embeds `CustomerManagedKeysOptions.Usage`. -/
inductive CMKUsage where
  | none
  | managedServices
  | storage
  | both
deriving DecidableEq, Repr

/-- The owner-account statement the builder places first in every generated
key policy (`CloudInfraBuilderForWorkspace.py`, lines 2553-2561). -/
def ownerAccountStatement : JsonValue :=
  .jobj [
    ("Sid", .jstr "Enable Owner Account Permissions"),
    ("Effect", .jstr "Allow"),
    ("Principal", .jobj [("AWS", .jobj [("Fn::Sub", .jstr "arn:aws:iam::${AWS::AccountId}:root")])]),
    ("Action", .jstr "kms:*"),
    ("Resource", .jstr "*")]

/-- The statement fragment `__defineCustomerManagerKeyResources` appends for
a given usage (`CloudInfraBuilderForWorkspace.py`, lines 2570-2578).  The
`none` case never reaches this code in the source (the whole block is guarded
by `usage != NONE`); it is mapped to the empty fragment. -/
def cmkUsageStatementFragment (usage : CMKUsage)
    (databricksIdRefName iamRoleResourceName : String) : List JsonValue :=
  match usage with
  | .managedServices => managedServicesPolicyStatement databricksIdRefName
  | .storage => workspaceStoragePolicyStatement databricksIdRefName iamRoleResourceName
  | .both => managedServicesPolicyStatement databricksIdRefName ++
      workspaceStoragePolicyStatement databricksIdRefName iamRoleResourceName
  | .none => []

/-- The statements of the generated encryption key's policy: the initial
owner-account statement followed by the usage-selected fragment
(`CloudInfraBuilderForWorkspace.py`, lines 2551-2578). -/
def encryptionKeyPolicyStatements (usage : CMKUsage)
    (databricksIdRefName iamRoleResourceName : String) : List JsonValue :=
  [ownerAccountStatement] ++ cmkUsageStatementFragment usage databricksIdRefName iamRoleResourceName

/-- C6 counterexample: under `Both` the generated key policy's statements are
NOT exactly the concatenation of the `ManagedServices` and `Storage`
fragments — the policy opens with the fixed owner-account statement, so it
has five statements where the bare concatenation has four. -/
theorem c6_both_policy_counterexample :
    (encryptionKeyPolicyStatements .both "DatabricksAccountId" "WorkspaceIamRole").length = 5 ∧
    (managedServicesPolicyStatement "DatabricksAccountId" ++
      workspaceStoragePolicyStatement "DatabricksAccountId" "WorkspaceIamRole").length = 4 ∧
    encryptionKeyPolicyStatements .both "DatabricksAccountId" "WorkspaceIamRole" ≠
      managedServicesPolicyStatement "DatabricksAccountId" ++
      workspaceStoragePolicyStatement "DatabricksAccountId" "WorkspaceIamRole" := by
  refine ⟨rfl, rfl, ?_⟩
  intro h
  have hlen := congrArg List.length h
  simp only [encryptionKeyPolicyStatements, cmkUsageStatementFragment,
    managedServicesPolicyStatement, workspaceStoragePolicyStatement,
    List.length_append, List.length_cons, List.length_nil] at hlen
  omega

/-- C6 (amended): under `Both` the generated key policy's statements are the
fixed owner-account statement followed by exactly the `ManagedServices`
fragment and then the `Storage` fragment, order-preserved; equivalently, the
`Both` policy is the `ManagedServices` policy followed by the `Storage`
fragment. -/
theorem c6_both_policy_amended (databricksIdRefName iamRoleResourceName : String) :
    encryptionKeyPolicyStatements .both databricksIdRefName iamRoleResourceName =
      ownerAccountStatement ::
        (managedServicesPolicyStatement databricksIdRefName ++
         workspaceStoragePolicyStatement databricksIdRefName iamRoleResourceName) ∧
    encryptionKeyPolicyStatements .both databricksIdRefName iamRoleResourceName =
      encryptionKeyPolicyStatements .managedServices databricksIdRefName iamRoleResourceName ++
        workspaceStoragePolicyStatement databricksIdRefName iamRoleResourceName := by
  constructor
  · rfl
  · simp [encryptionKeyPolicyStatements, cmkUsageStatementFragment]

/-- Lexicographic code-point comparison of character lists: the strict-order
test Python uses when comparing strings (and `sorted` uses on `str`). -/
def charListLtB : List Char → List Char → Bool
  | [], [] => false
  | [], _ :: _ => true
  | _ :: _, [] => false
  | c :: cs, d :: ds =>
    if c.toNat < d.toNat then true
    else if d.toNat < c.toNat then false
    else charListLtB cs ds

/-- Executable string comparison `a <= b`, by code points as in Python. -/
def strLeB (a b : String) : Bool := ! charListLtB b.data a.data

theorem charLt_iff (c d : Char) : c < d ↔ c.toNat < d.toNat := Iff.rfl

theorem char_eq_of_toNat_eq {c d : Char} (h : c.toNat = d.toNat) : c = d :=
  Char.ext (by exact UInt32.toNat.inj h)

theorem charListLtB_lex_iff (a b : List Char) :
    charListLtB a b = true ↔ List.Lex (· < ·) a b := by
  induction a generalizing b with
  | nil =>
    cases b with
    | nil =>
      simp only [charListLtB, Bool.false_eq_true, false_iff]
      exact List.Lex.not_nil_right _ _
    | cons d ds =>
      simp only [charListLtB, true_iff]
      exact List.Lex.nil
  | cons c cs ih =>
    cases b with
    | nil =>
      simp only [charListLtB, Bool.false_eq_true, false_iff]
      exact List.Lex.not_nil_right _ _
    | cons d ds =>
      unfold charListLtB
      split
      · rename_i hlt
        simp only [true_iff]
        exact List.Lex.rel ((charLt_iff c d).mpr hlt)
      · split
        · rename_i hnlt hgt
          simp only [Bool.false_eq_true, false_iff]
          intro h
          cases h with
          | cons h => exact absurd hgt (lt_irrefl _)
          | rel h => exact hnlt ((charLt_iff c d).mp h)
        · rename_i hnlt hngt
          have hcd : c = d := char_eq_of_toNat_eq (by omega)
          subst hcd
          rw [ih ds]
          exact (List.Lex.cons_iff).symm

/-- The executable comparison agrees with the standard linear order on
`String`. -/
theorem strLeB_eq_true_iff (a b : String) : strLeB a b = true ↔ a ≤ b := by
  have h1 : strLeB a b = true ↔ ¬ charListLtB b.data a.data = true := by
    unfold strLeB; cases charListLtB b.data a.data <;> simp
  have h2 : (b.toList < a.toList) ↔ List.Lex (· < ·) b.data a.data := Iff.rfl
  rw [h1, charListLtB_lex_iff, ← h2, not_lt, ← String.le_iff_toList_le]

instance : IsTotal String (fun a b => strLeB a b = true) :=
  ⟨fun a b => by
    rw [strLeB_eq_true_iff, strLeB_eq_true_iff]
    exact le_total a b⟩

instance : IsTrans String (fun a b => strLeB a b = true) :=
  ⟨fun a b c hab hbc => by
    rw [strLeB_eq_true_iff] at hab hbc ⊢
    exact le_trans hab hbc⟩

/-- One primitive effect of the build on the accumulated template and
permission sets: inserting a resource under a fresh key into the ordered
`Resources` mapping, or adding an action string to one of the two privilege
sets.  Parameters, outputs, comments and resource properties are not tracked:
only the ordered list of resource keys and the two permission sets, which is
what the settled claims are about. -/
inductive BuildOp where
  | res (key : String)
  | priv (action : String)
  | rollback (action : String)

/-- The mutable state of `CloudInfraBuilderForWorkspace` as far as the claims
are concerned: the ordered resource keys of the CloudFormation template and
the two privilege sets (Python `set`s, embedded as duplicate-free lists in
insertion order). -/
structure BuildState where
  resources : List String
  requiredPrivileges : List String
  requiredPrivilegesForRollback : List String
deriving DecidableEq, Repr

/-- `set.add`: appends the element unless already present (Python set
semantics, with insertion order as the representation order). -/
def addPriv (l : List String) (a : String) : List String :=
  if a ∈ l then l else l ++ [a]

def applyOp (st : BuildState) : BuildOp → BuildState
  | .res k => { st with resources := st.resources ++ [k] }
  | .priv a => { st with requiredPrivileges := addPriv st.requiredPrivileges a }
  | .rollback a =>
    { st with requiredPrivilegesForRollback := addPriv st.requiredPrivilegesForRollback a }

def applyOps (st : BuildState) (ops : List BuildOp) : BuildState :=
  ops.foldl applyOp st

/-- `self.__requiredPrivileges = set()` etc. in
`__initialiseCloudFormationTemplate` (lines 99-200): every build starts from
an empty template and empty permission sets. -/
def initialBuildState : BuildState := ⟨[], [], []⟩

/-- Iterates a per-availability-zone op list, as the
`for iAZ in range(len(availabilityZoneIndexes))` loops do. -/
def forEachAZ (n : Nat) (f : Nat → List BuildOp) : List BuildOp :=
  (List.range n).flatMap f

/-- Embeds `__defineStorageResource` (lines 205-509): resource keys inserted
and privileges added, in program order. -/
def storageOps : List BuildOp :=
  [.res "DBFSRootBucket",
   .priv "s3:CreateBucket", .priv "s3:PutBucketTagging",
   .priv "s3:PutBucketPublicAccessBlock", .priv "s3:PutEncryptionConfiguration",
   .rollback "s3:DeleteBucket",
   .res "DBFSRootBucketPolicy",
   .priv "s3:PutBucketPolicy", .priv "s3:GetBucketPolicy",
   .rollback "s3:DeleteBucketPolicy",
   .res "StorageCredentialIAMRole",
   .priv "iam:CreateRole", .priv "iam:GetRole", .priv "iam:TagRole",
   .priv "iam:PutRolePolicy", .priv "iam:GetRolePolicy",
   .rollback "iam:DeleteRole", .rollback "iam:DeleteRolePolicy"]

/-- Embeds the resource-key insertions and privilege additions of
`__defineNetworking` (lines 526-2403), in program order.  `effAZ` models the
`if isUsingSingleAZ: break` loops, which run exactly one full iteration under
`InternetAccess.STANDARD`. -/
def networkingOps (d : NetworkArchitectureDesignOptions)
    (p : NetworkArchitectureParameters) : List BuildOp :=
  let nAZ := p.availabilityZoneIndexes.length
  let effAZ := if d.internetAccess = .standard then min 1 nAZ else nAZ
  [.res "DBSVpc",
   .priv "ec2:CreateVpc", .priv "ec2:DescribeVpcs", .priv "ec2:ModifyVpcAttribute",
   .priv "ec2:CreateTags", .rollback "ec2:DeleteVpc", .rollback "ec2:DeleteTags"]
  ++ (if d.vpcArchitecture = .hubAndSpoke then [.res "HubVpc"] else [])
  ++ (if d.internetAccess ≠ .disabled then
        [.res "Igw",
         .priv "ec2:CreateInternetGateway", .priv "ec2:DescribeInternetGateways",
         .rollback "ec2:DeleteInternetGateway",
         .res "VpcIgwAttachment",
         .priv "ec2:AttachInternetGateway", .rollback "ec2:DetachInternetGateway"]
      else [])
  ++ forEachAZ nAZ (fun i => [.res ("DBSClusterSubnet" ++ toString (i + 1))])
  ++ [.priv "ec2:CreateSubnet", .priv "ec2:DescribeSubnets",
      .priv "ec2:DescribeAvailabilityZones", .rollback "ec2:DeleteSubnet"]
  ++ (if d.vpcArchitecture = .hubAndSpoke then
        forEachAZ nAZ (fun i => [.res ("DBSVPCTransitGatewaySubnet" ++ toString (i + 1))])
        ++ forEachAZ nAZ (fun i => [.res ("HubVPCTransitGatewaySubnet" ++ toString (i + 1))])
      else [])
  ++ (if d.privateLinkEndpoints = .enabled then
        forEachAZ nAZ (fun i => [.res ("VPCEndpointSubnet" ++ toString (i + 1))])
      else [])
  ++ (if d.dataExfiltrationProtection = .activated then
        forEachAZ effAZ (fun i => [.res ("FirewallSubnet" ++ toString (i + 1))])
      else [])
  ++ (if d.internetAccess ≠ .disabled then
        forEachAZ effAZ (fun i => [.res ("NatSubnet" ++ toString (i + 1))])
      else [])
  ++ (if d.internetAccess ≠ .disabled then
        forEachAZ effAZ (fun i =>
          [.res ("ElasticIPForNat" ++ toString (i + 1)), .res ("NatGateway" ++ toString (i + 1))])
        ++ [.priv "ec2:AllocateAddress", .priv "ec2:AssociateAddress",
            .priv "ec2:DescribeAddresses", .priv "ec2:CreateNatGateway",
            .priv "ec2:DescribeNatGateways",
            .rollback "ec2:DeleteVpc", .rollback "ec2:ReleaseAddress",
            .rollback "ec2:DisassociateAddress", .rollback "ec2:DeleteNatGateway"]
      else [])
  ++ (if d.dataExfiltrationProtection = .activated then
        [.res "StatefulNetworkFirewallRulesForWhiteListedDomains",
         .priv "network-firewall:CreateRuleGroup", .priv "network-firewall:DescribeRuleGroup",
         .priv "network-firewall:ListRuleGroups", .priv "network-firewall:TagResource",
         .rollback "network-firewall:DeleteRuleGroup",
         .res "StatefulNetworkFirewallRulesForLegacyMetastore",
         .res "StatefulNetworkFirewallRulesForBlockedProtocols",
         .res "NetworkFirewallPolicy",
         .priv "network-firewall:CreateFirewallPolicy",
         .priv "network-firewall:DescribeFirewallPolicy",
         .rollback "network-firewall:DeleteFirewallPolicy",
         .res "NetworkFirewall",
         .priv "network-firewall:CreateFirewall", .priv "network-firewall:DescribeFirewall",
         .priv "network-firewall:AssociateFirewallPolicy",
         .priv "network-firewall:AssociateSubnets",
         .rollback "network-firewall:DeleteFirewall", .rollback "logs:ListLogDeliveries"]
      else [])
  ++ (if d.vpcArchitecture = .hubAndSpoke then
        [.res "TransitGateway",
         .priv "ec2:CreateTransitGateway", .priv "ec2:ModifyTransitGateway",
         .priv "ec2:DescribeTransitGateways", .rollback "ec2:DeleteTransitGateway",
         .res "HubVpcTransitGatewayAttachment",
         .priv "ec2:CreateTransitGatewayVpcAttachment",
         .priv "ec2:DescribeTransitGatewayVpcAttachments",
         .rollback "ec2:DeleteTransitGatewayVpcAttachment",
         .res "DBSVpcTransitGatewayAttachment"]
      else [])
  ++ forEachAZ nAZ (fun i =>
       [.res ("DBSClusterSubnetRouteTable" ++ toString (i + 1))]
       ++ (if d.vpcArchitecture = .hubAndSpoke ∨ d.internetAccess ≠ .disabled then
             [.res ("RouteToInternetInDBSClusterSubnetRouteTable" ++ toString (i + 1))]
           else [])
       ++ [.res ("DBSClusterSubnet" ++ toString (i + 1) ++ "RouteTableAssociation")])
  ++ [.priv "ec2:CreateRouteTable", .priv "ec2:DescribeRouteTables", .priv "ec2:CreateRoute",
      .priv "ec2:AssociateRouteTable",
      .rollback "ec2:DeleteRouteTable", .rollback "ec2:DeleteRoute",
      .rollback "ec2:DisassociateRouteTable"]
  ++ (if d.privateLinkEndpoints = .enabled then
        [.res "EndpointSubnetsRouteTable"]
        ++ (if d.vpcArchitecture = .hubAndSpoke then
              [.res "RouteToInternetInHubVpcEndpointSubnetsRouteTable"] else [])
        ++ forEachAZ nAZ (fun i =>
             [.res ("EndpointSubnet" ++ toString (i + 1) ++ "RouteTableAssociation")])
      else [])
  ++ (if d.dataExfiltrationProtection = .activated then
        forEachAZ effAZ (fun i =>
          [.res ("FirewallRouteTable" ++ toString (i + 1)),
           .res ("RouteToInternetInFirewallRouteTable" ++ toString (i + 1))]
          ++ (if d.vpcArchitecture = .hubAndSpoke then
                [.res ("RouteToVPCsInFirewallRouteTable" ++ toString (i + 1))] else [])
          ++ [.res ("FirewallSubnetRouteTable" ++ toString (i + 1) ++ "Association")])
      else [])
  ++ (if d.internetAccess ≠ .disabled then
        forEachAZ effAZ (fun i =>
          [.res ("NatRouteTable" ++ toString (i + 1)),
           .res ("RouteToInternetInNatSubnetRouteTable" ++ toString (i + 1))]
          ++ (if d.dataExfiltrationProtection = .activated ∨ d.vpcArchitecture = .hubAndSpoke then
                [.res ("ReturnRouteInNatRouteTable" ++ toString (i + 1))] else [])
          ++ [.res ("NatSubnetRouteTable" ++ toString (i + 1) ++ "Association")])
      else [])
  ++ (if d.vpcArchitecture = .hubAndSpoke then
        forEachAZ nAZ (fun i =>
          [.res ("HubVpcTransitGatewaySubnetsRouteTable" ++ toString (i + 1)),
           .res ("RouteToSpokeVpcsInHubVpcTransitGatewaySubnetsRouteTable" ++ toString (i + 1))]
          ++ (if d.internetAccess ≠ .disabled then
                [.res ("RouteToInternetInHubVpcTransitGatewaySubnetsRouteTable" ++ toString (i + 1))]
              else [])
          ++ [.res ("HubVpcTransitGatewaySubnet1RouteTable" ++ toString (i + 1) ++ "Association")])
        ++ [.res "TransitGatewayRouteTableDbs",
            .priv "ec2:CreateTransitGatewayRouteTable",
            .priv "ec2:DescribeTransitGatewayRouteTables",
            .rollback "ec2:DeleteTransitGatewayRouteTable"]
        ++ forEachAZ nAZ (fun i =>
             [.res ("RouteToEndpointSubnet" ++ toString (i + 1) ++ "InTransitGatewayRouteTableDbs")])
        ++ [.priv "ec2:CreateTransitGatewayRoute", .priv "ec2:DescribeTransitGatewayRouteTables",
            .priv "ec2:SearchTransitGatewayRoutes", .rollback "ec2:DeleteTransitGatewayRoute"]
        ++ (if d.internetAccess ≠ .disabled then
              [.res "RouteToInternetInTransitGatewayRouteTable"] else [])
        ++ [.res "BlockRouteToVPCsInTransitGatewayRouteTable",
            .res "TransitGatewayAttachmentForDBSVpcRouteTableAssociation",
            .priv "ec2:AssociateTransitGatewayRouteTable",
            .priv "ec2:GetTransitGatewayRouteTableAssociations",
            .rollback "ec2:DisassociateTransitGatewayRouteTable",
            .res "TransitGatewayRouteTableHub",
            .res "RouteToDBSVpcInTransitGatewayRouteTable",
            .res "TransitGatewayAttachmentForHubVpcRouteTableAssociation",
            .res "TransitGatewayAttachmentForHubVpcRouteTablePropagation",
            .res "TransitGatewayAttachmentForDBSVpcRouteTablePropagation",
            .priv "ec2:EnableTransitGatewayRouteTablePropagation",
            .priv "ec2:GetTransitGatewayRouteTablePropagations",
            .rollback "ec2:DisableTransitGatewayRouteTablePropagation"]
      else [])
  ++ [.res "S3GatewayEndpoint",
      .priv "ec2:CreateVpcEndpoint", .priv "ec2:DescribeVpcEndpoints",
      .rollback "ec2:DeleteVpcEndpoints"]
  ++ [.res "SecurityGroupForDatabricksClusters",
      .priv "ec2:CreateSecurityGroup", .priv "ec2:DescribeSecurityGroups",
      .priv "ec2:ModifySecurityGroupRules", .rollback "ec2:DeleteSecurityGroup",
      .res "SecurityGroupForDatabricksClustersDefaultTcpIngress",
      .priv "ec2:AuthorizeSecurityGroupIngress", .rollback "ec2:RevokeSecurityGroupIngress",
      .res "SecurityGroupForDatabricksClustersDefaultUdpIngress",
      .res "SecurityGroupForDatabricksClustersDefaultTcpEgress",
      .priv "ec2:AuthorizeSecurityGroupEgress", .rollback "ec2:RevokeSecurityGroupEgress",
      .res "SecurityGroupForDatabricksClustersDefaultUdpEgress",
      .res "SecurityGroupForDatabricksClustersEgressForHttps",
      .res "SecurityGroupForDatabricksClustersEgressForMetastore"]
  ++ (if d.privateLinkEndpoints = .enabled then
        [.res "SecurityGroupForDatabricksClustersEgressForPrivateLink"] else [])
  ++ [.res "SecurityGroupForDatabricksClustersEgressForInternalCalls"]
  ++ (if d.privateLinkEndpoints = .enabled then
        [.res "SecurityGroupForEndpoints",
         .res "SecurityGroupForEndpointsDefaultTcpIngress",
         .res "SecurityGroupForEndpointsDefaultUdpIngress",
         .res "STSInterfaceEndpoint"]
        ++ (if d.vpcArchitecture = .hubAndSpoke then
              [.res "PrivateHostedZoneForSTSEndoint",
               .priv "route53:CreateHostedZone", .priv "route53:AssociateVPCWithHostedZone",
               .priv "route53:GetChange", .priv "route53:ChangeTagsForResource",
               .rollback "route53:DeleteHostedZone",
               .rollback "route53:DisassociateVPCFromHostedZone",
               .rollback "route53:ListQueryLoggingConfigs",
               .res "RecordSetForPrivateHostedZoneForSTSEndoint",
               .priv "route53:GetHostedZone", .priv "route53:ChangeResourceRecordSets",
               .priv "route53:ListHostedZones"]
            else [])
        ++ [.res "KinesisInterfaceEndpoint"]
        ++ (if d.vpcArchitecture = .hubAndSpoke then
              [.res "PrivateHostedZoneForKinesisEndoint",
               .res "RecordSetForPrivateHostedZoneForKinesisStreamEndoint"]
            else [])
        ++ [.res "DBSRestApiInterfaceEndpoint", .priv "route53:AssociateVPCWithHostedZone"]
        ++ (if d.vpcArchitecture = .hubAndSpoke then
              [.res "PrivateHostedZoneForDatabricksWorkspaceEndoint",
               .res "RecordSetForPrivateHostedZoneForDatabricksWorkspaceEndoint"]
            else [])
        ++ [.res "DBSRelayApiInterfaceEndpoint"]
        ++ (if d.vpcArchitecture = .hubAndSpoke then
              [.res "PrivateHostedZoneForDatabricksBackendEndoint",
               .res "RecordSetForPrivateHostedZoneForDatabricksBackendEndoint"]
            else [])
      else [])

/-- Embeds `__defineWorkspaceIamRole` (lines 2405-2523). -/
def workspaceIamRoleOps : List BuildOp :=
  [.res "WorkspaceIamRole",
   .priv "iam:CreateRole", .priv "iam:GetRole", .priv "iam:TagRole",
   .priv "iam:PutRolePolicy", .priv "iam:GetRolePolicy",
   .rollback "iam:DeleteRole", .rollback "iam:DeleteRolePolicy"]

/-- The KMS resource keys and privileges added for any recognized non-`NONE`
usage (lines 2543-2624); the four usages differ only in the key-policy
statements, modelled separately by `encryptionKeyPolicyStatements`. -/
def cmkResourceOps : List BuildOp :=
  [.res "EncryptionKey",
   .priv "kms:CreateKey", .priv "kms:DescribeKey", .priv "kms:EnableKey",
   .priv "kms:PutKeyPolicy", .priv "kms:TagResource", .priv "kms:ListResourceTags",
   .rollback "kms:DisableKey", .rollback "kms:ScheduleKeyDeletion",
   .rollback "kms:UntagResource",
   .res "EncryptionKeyAlias",
   .priv "kms:CreateAlias", .rollback "kms:DeleteAlias"]

/-- Embeds `CustomerManagedKeysOptions.Usage` as seen by the builder's
`if/elif` chain in `__defineCustomerManagerKeyResources`: Python's enum is
open to values outside the four declared members from the builder's point of
view (the chain ends in `else: raise`), so the embedded input is either a
recognized member or an unrecognized value. -/
inductive RawCMKUsage where
  | valid (u : CMKUsage)
  | unrecognized
deriving DecidableEq, Repr

/-- The constructor inputs of `CloudInfraBuilderForWorkspace` that influence
the resource keys and permission sets (lines 11-21): the remaining inputs
(account id, key alias, tags) only shape resource properties, which the
embedding does not track, but are kept so the build is a function of the full
input tuple. -/
structure BuildInput where
  databricksAccountId : String
  designOptions : NetworkArchitectureDesignOptions
  parameters : NetworkArchitectureParameters
  cmkUsage : RawCMKUsage
  keyAlias : Option String
  tags : List (String × String)

/-- An error escaping the build: a planner error propagated from
`SubnetConfigurationBuilder` at the start of `__defineNetworking`, or the
builder's own `raise Exception("Invalid CMK usage: ...")` at line 2580. -/
inductive BuildError where
  | plannerError (e : PlanError)
  | invalidCmkUsage
deriving DecidableEq, Repr

/-- Embeds `__defineCustomerManagerKeyResources` (lines 2540-2624): for
`NONE` nothing happens; for the three recognized non-`NONE` usages the key
and alias resources and KMS privileges are added; for an unrecognized usage
the `EncryptionKey` resource has already been inserted (line 2543) when the
`else` branch raises (line 2580), so the state at the raise contains it. -/
def defineCustomerManagerKeyResources (usage : RawCMKUsage) (st : BuildState) :
    BuildState × Option BuildError :=
  match usage with
  | .valid .none => (st, none)
  | .valid .managedServices => (applyOps st cmkResourceOps, none)
  | .valid .storage => (applyOps st cmkResourceOps, none)
  | .valid .both => (applyOps st cmkResourceOps, none)
  | .unrecognized => (applyOps st [.res "EncryptionKey"], some .invalidCmkUsage)

/-- The state after the storage, networking and IAM-role phases. -/
def stAfterIam (i : BuildInput) : BuildState :=
  applyOps (applyOps (applyOps initialBuildState storageOps)
    (networkingOps i.designOptions i.parameters)) workspaceIamRoleOps

/-- Runs the phases of `cloudFormationTemplateBodyParametersAndRequiredPermissions`
(lines 29-47) and reports the state reached together with the error escaping
the run, if any: the storage phase runs first; the networking phase begins by
invoking the planner (line 528), whose exception aborts the run there; the
IAM-role and CMK phases follow. -/
def runBuild (i : BuildInput) : BuildState × Option BuildError :=
  match buildSubnetConfiguration i.designOptions i.parameters with
  | .error e => (applyOps initialBuildState storageOps, some (.plannerError e))
  | .ok _ => defineCustomerManagerKeyResources i.cmkUsage (stAfterIam i)

/-- The emitted permissions policy: two statements whose `Action` lists are
`sorted(list(...))` of the respective privilege sets
(`__generatePolicyDocument`, lines 52-70). -/
structure PolicyDocument where
  createActions : List String
  rollbackActions : List String
deriving DecidableEq, Repr

/-- Python's `sorted` on a list of strings (code-point lexicographic). -/
def sortedActions (l : List String) : List String :=
  List.insertionSort (fun a b => strLeB a b = true) l

def generatePolicyDocument (st : BuildState) : PolicyDocument :=
  { createActions := sortedActions st.requiredPrivileges,
    rollbackActions := sortedActions st.requiredPrivilegesForRollback }

/-- The caller-visible result of
`cloudFormationTemplateBodyParametersAndRequiredPermissions`: the final graph
state and policy document on success, and only the escaping exception on
failure (a Python `raise` returns nothing to the caller). -/
def cloudFormationTemplateBodyParametersAndRequiredPermissions (i : BuildInput) :
    Except BuildError (BuildState × PolicyDocument) :=
  match runBuild i with
  | (_, some e) => .error e
  | (st, none) => .ok (st, generatePolicyDocument st)

theorem addPriv_nodup {l : List String} (a : String) (h : l.Nodup) :
    (addPriv l a).Nodup := by
  unfold addPriv
  split
  · exact h
  · rename_i hmem
    simp [List.nodup_append, h, hmem]

theorem applyOps_nodup (ops : List BuildOp) (st : BuildState)
    (h₁ : st.requiredPrivileges.Nodup) (h₂ : st.requiredPrivilegesForRollback.Nodup) :
    (applyOps st ops).requiredPrivileges.Nodup ∧
    (applyOps st ops).requiredPrivilegesForRollback.Nodup := by
  induction ops generalizing st with
  | nil => exact ⟨h₁, h₂⟩
  | cons op rest ih =>
    cases op with
    | res k => exact ih _ h₁ h₂
    | priv a => exact ih _ (addPriv_nodup a h₁) h₂
    | rollback a => exact ih _ h₁ (addPriv_nodup a h₂)

/-- The privilege sets reached by any run are duplicate-free: they start
empty and every addition is a set insertion. -/
theorem runBuild_nodup (i : BuildInput) :
    (runBuild i).1.requiredPrivileges.Nodup ∧
    (runBuild i).1.requiredPrivilegesForRollback.Nodup := by
  unfold runBuild
  cases hcfg : buildSubnetConfiguration i.designOptions i.parameters with
  | error e =>
    exact applyOps_nodup storageOps initialBuildState List.nodup_nil List.nodup_nil
  | ok cfg =>
    have h0 := applyOps_nodup storageOps initialBuildState List.nodup_nil List.nodup_nil
    have h1 := applyOps_nodup (networkingOps i.designOptions i.parameters) _ h0.1 h0.2
    have h2 := applyOps_nodup workspaceIamRoleOps _ h1.1 h1.2
    unfold defineCustomerManagerKeyResources
    cases hu : i.cmkUsage with
    | valid u =>
      cases u with
      | none => exact h2
      | managedServices => exact applyOps_nodup cmkResourceOps _ h2.1 h2.2
      | storage => exact applyOps_nodup cmkResourceOps _ h2.1 h2.2
      | both => exact applyOps_nodup cmkResourceOps _ h2.1 h2.2
    | unrecognized => exact applyOps_nodup [.res "EncryptionKey"] _ h2.1 h2.2

/-- A build input with an unrecognized CMK usage value and otherwise default
options: single VPC, standard internet access, no PrivateLink, no data
exfiltration protection, default address block and availability zones. -/
def c7Input : BuildInput :=
  { databricksAccountId := "123456789012",
    designOptions := {},
    parameters := {},
    cmkUsage := .unrecognized,
    keyAlias := none,
    tags := [] }

/-- C7 counterexample: the builder's own error (the unrecognized-CMK-usage
`raise` at line 2580) is NOT raised before any resource has been added to the
graph: at the raise, the storage, networking and IAM-role resources are all
present, and even the `EncryptionKey` resource itself has already been
inserted (line 2543 precedes the raise). -/
theorem c7_error_before_resources_counterexample :
    (runBuild c7Input).2 = some .invalidCmkUsage ∧
    (runBuild c7Input).1.resources ≠ [] ∧
    "EncryptionKey" ∈ (runBuild c7Input).1.resources := by
  refine ⟨rfl, ?_, ?_⟩ <;> decide

/-- C7 (amended): the only errors escaping a build are planner errors
propagated unchanged from `SubnetConfigurationBuilder`, and the builder's own
unrecognized-CMK-usage error — the latter raised only after the full resource
graph up to and including the `EncryptionKey` resource has been accumulated,
not before any resource is added.  On any error, the caller receives no
partial graph: the build's public entry point returns no `.ok` result. -/
theorem c7_error_semantics_amended (i : BuildInput) (st : BuildState) (e : BuildError)
    (h : runBuild i = (st, some e)) :
    ((∃ pe, e = .plannerError pe ∧
        buildSubnetConfiguration i.designOptions i.parameters = .error pe) ∨
      (e = .invalidCmkUsage ∧ i.cmkUsage = .unrecognized ∧
        st.resources ≠ [] ∧ "EncryptionKey" ∈ st.resources)) ∧
    ∀ out, cloudFormationTemplateBodyParametersAndRequiredPermissions i ≠ .ok out := by
  constructor
  · unfold runBuild at h
    cases hcfg : buildSubnetConfiguration i.designOptions i.parameters with
    | error pe =>
      rw [hcfg] at h
      rw [Prod.mk.injEq] at h
      obtain ⟨h1, h2⟩ := h
      injection h2 with h2
      exact .inl ⟨pe, h2.symm, rfl⟩
    | ok cfg =>
      rw [hcfg] at h
      simp only at h
      unfold defineCustomerManagerKeyResources at h
      cases hu : i.cmkUsage with
      | valid u =>
        rw [hu] at h
        cases u with
        | none => rw [Prod.mk.injEq] at h; exact absurd h.2 (by simp)
        | managedServices => rw [Prod.mk.injEq] at h; exact absurd h.2 (by simp)
        | storage => rw [Prod.mk.injEq] at h; exact absurd h.2 (by simp)
        | both => rw [Prod.mk.injEq] at h; exact absurd h.2 (by simp)
      | unrecognized =>
        rw [hu] at h
        rw [Prod.mk.injEq] at h
        obtain ⟨h1, h2⟩ := h
        injection h2 with h2
        refine .inr ⟨h2.symm, rfl, ?_, ?_⟩
        · rw [← h1]
          simp [applyOps, applyOp]
        · rw [← h1]
          simp [applyOps, applyOp]
  · intro out hout
    unfold cloudFormationTemplateBodyParametersAndRequiredPermissions at hout
    rw [h] at hout
    simp at hout

theorem c7_error_semantics_amended_witness :
    ((∃ pe, BuildError.invalidCmkUsage = .plannerError pe ∧
        buildSubnetConfiguration c7Input.designOptions c7Input.parameters = .error pe) ∨
      (BuildError.invalidCmkUsage = .invalidCmkUsage ∧ c7Input.cmkUsage = .unrecognized ∧
        (runBuild c7Input).1.resources ≠ [] ∧ "EncryptionKey" ∈ (runBuild c7Input).1.resources)) ∧
    ∀ out, cloudFormationTemplateBodyParametersAndRequiredPermissions c7Input ≠ .ok out := by
  have h2 : (runBuild c7Input).2 = some .invalidCmkUsage := rfl
  exact c7_error_semantics_amended c7Input (runBuild c7Input).1 .invalidCmkUsage (by rw [← h2])

/-- C8: for every fixed input, the build is deterministic — any successful
result has the unique state and policy document computed by the (pure) build
function, so two runs yield identical sorted permission lists — and in the
emitted policy document the `Action` list of the create-time and
rollback-time statements is exactly the sorted, duplicate-free contents of
the corresponding accumulated permission set: sorted in the standard string
order, duplicate-free, and containing precisely the accumulated actions. -/
theorem c8_permission_lists_sorted_dedup (i : BuildInput) (st : BuildState)
    (doc : PolicyDocument)
    (h : cloudFormationTemplateBodyParametersAndRequiredPermissions i = .ok (st, doc)) :
    (∀ st' doc', cloudFormationTemplateBodyParametersAndRequiredPermissions i = .ok (st', doc') →
       st' = st ∧ doc' = doc) ∧
    doc.createActions.Sorted (· ≤ ·) ∧ doc.createActions.Nodup ∧
    (∀ a, a ∈ doc.createActions ↔ a ∈ st.requiredPrivileges) ∧
    doc.rollbackActions.Sorted (· ≤ ·) ∧ doc.rollbackActions.Nodup ∧
    (∀ a, a ∈ doc.rollbackActions ↔ a ∈ st.requiredPrivilegesForRollback) := by
  have hnd := runBuild_nodup i
  unfold cloudFormationTemplateBodyParametersAndRequiredPermissions at h
  cases hrb : runBuild i with
  | mk st₀ oe =>
    rw [hrb] at h
    rw [hrb] at hnd
    cases oe with
    | some e => simp at h
    | none =>
      simp only at h
      injection h with h'
      injection h' with hst hdoc
      subst hst
      subst hdoc
      refine ⟨?_, ?_, ?_, ?_, ?_, ?_, ?_⟩
      · intro st' doc' h'
        unfold cloudFormationTemplateBodyParametersAndRequiredPermissions at h'
        rw [hrb] at h'
        simp only at h'
        injection h' with h'
        injection h' with hst' hdoc'
        exact ⟨hst'.symm, hdoc'.symm⟩
      · exact (List.sorted_insertionSort (fun a b => strLeB a b = true)
          st₀.requiredPrivileges).imp (fun hab => (strLeB_eq_true_iff _ _).mp hab)
      · exact (List.perm_insertionSort (fun a b => strLeB a b = true)
          st₀.requiredPrivileges).symm.nodup hnd.1
      · intro a
        exact (List.perm_insertionSort (fun a b => strLeB a b = true)
          st₀.requiredPrivileges).mem_iff
      · exact (List.sorted_insertionSort (fun a b => strLeB a b = true)
          st₀.requiredPrivilegesForRollback).imp (fun hab => (strLeB_eq_true_iff _ _).mp hab)
      · exact (List.perm_insertionSort (fun a b => strLeB a b = true)
          st₀.requiredPrivilegesForRollback).symm.nodup hnd.2
      · intro a
        exact (List.perm_insertionSort (fun a b => strLeB a b = true)
          st₀.requiredPrivilegesForRollback).mem_iff

/-- A fully successful build input: default network design and parameters
with customer-managed keys used for both managed services and storage. -/
def c8Input : BuildInput :=
  { databricksAccountId := "123456789012",
    designOptions := {},
    parameters := {},
    cmkUsage := .valid .both,
    keyAlias := none,
    tags := [] }

def c8State : BuildState := (runBuild c8Input).1

def c8Doc : PolicyDocument := generatePolicyDocument c8State

theorem c8_permission_lists_sorted_dedup_witness :
    (∀ st' doc', cloudFormationTemplateBodyParametersAndRequiredPermissions c8Input =
        .ok (st', doc') → st' = c8State ∧ doc' = c8Doc) ∧
    c8Doc.createActions.Sorted (· ≤ ·) ∧ c8Doc.createActions.Nodup ∧
    (∀ a, a ∈ c8Doc.createActions ↔ a ∈ c8State.requiredPrivileges) ∧
    c8Doc.rollbackActions.Sorted (· ≤ ·) ∧ c8Doc.rollbackActions.Nodup ∧
    (∀ a, a ∈ c8Doc.rollbackActions ↔ a ∈ c8State.requiredPrivilegesForRollback) :=
  c8_permission_lists_sorted_dedup c8Input c8State c8Doc (by rfl)
